import Mathlib

/-!
# Verification of the wargame2d simulation engine

Shallow embedding of the core mechanics of the `wargame2d` repository
(combat resolution, sensor/observation system, entity model and
serialization), together with proofs of the specification's claims about
them.

Python floats are modelled as rationals (`ℚ`), Python ints as `ℤ`/`ℕ`,
Python exceptions as `Except String`, and Python sets as `Finset`.
-/

namespace Wargame

/-! ## Hit probability (`src/env/mechanics/combat.py`, `hit_probability`) -/

/-- Embedding of `hit_probability` from `src/env/mechanics/combat.py`.
The Python function raises `ValueError` on a negative distance or
out-of-range probability parameters (modelled by `Except.error`), returns
`0.0` whenever `max_range <= 0` or the distance exceeds `max_range`, and
otherwise linearly interpolates from `base` at distance `0` to `min_p` at
distance `max_range`, clamping `distance / max_range` into `[0, 1]`. -/
def hit_probability (distance max_range base min_p : ℚ) : Except String ℚ :=
  if distance < 0 then
    Except.error "Distance cannot be negative"
  else if max_range ≤ 0 then
    Except.ok 0
  else if ¬ (0 ≤ base ∧ base ≤ 1) then
    Except.error "Base probability must be in [0, 1]"
  else if ¬ (0 ≤ min_p ∧ min_p ≤ 1) then
    Except.error "Min probability must be in [0, 1]"
  else if min_p > base then
    Except.error "Min probability cannot exceed base"
  else if distance > max_range then
    Except.ok 0
  else
    Except.ok (base - (base - min_p) * (max 0 (min 1 (distance / max_range))))

/-- Helper: in the in-range regime the clamp is the identity and
`hit_probability` returns the bare linear interpolation. -/
theorem hit_probability_in_range (d mr b mp : ℚ)
    (hd : 0 ≤ d) (hdr : d ≤ mr) (hmr : 0 < mr)
    (hb0 : 0 ≤ b) (hb1 : b ≤ 1) (hm0 : 0 ≤ mp) (hm1 : mp ≤ 1) (hmb : mp ≤ b) :
    hit_probability d mr b mp = Except.ok (b - (b - mp) * (d / mr)) := by
  unfold hit_probability
  rw [if_neg (not_lt.mpr hd), if_neg (not_le.mpr hmr),
    if_neg (not_not_intro ⟨hb0, hb1⟩), if_neg (not_not_intro ⟨hm0, hm1⟩),
    if_neg (not_lt.mpr hmb), if_neg (not_lt.mpr hdr)]
  have hfrac0 : (0 : ℚ) ≤ d / mr := div_nonneg hd (le_of_lt hmr)
  have hfrac1 : d / mr ≤ 1 := (div_le_one hmr).mpr hdr
  rw [min_eq_right hfrac1, max_eq_right hfrac0]

/-- Helper: beyond `max_range` (with valid parameters) the probability is 0. -/
theorem hit_probability_out_of_range (d mr b mp : ℚ)
    (hd : 0 ≤ d) (hdr : mr < d) (hmr : 0 < mr)
    (hb0 : 0 ≤ b) (hb1 : b ≤ 1) (hm0 : 0 ≤ mp) (hm1 : mp ≤ 1) (hmb : mp ≤ b) :
    hit_probability d mr b mp = Except.ok 0 := by
  unfold hit_probability
  rw [if_neg (not_lt.mpr hd), if_neg (not_le.mpr hmr),
    if_neg (not_not_intro ⟨hb0, hb1⟩), if_neg (not_not_intro ⟨hm0, hm1⟩),
    if_neg (not_lt.mpr hmb), if_pos hdr]

/-- C1: for `d ≥ 0` and valid probability parameters, `hit_probability`
returns `base - (base - min_p) * (d / max_range)` when `0 < max_range` and
`d ≤ max_range`, returns `0` when `0 < max_range < d`, and returns `0` for
every distance when `max_range ≤ 0`. -/
theorem hit_probability_contract (d mr b mp : ℚ)
    (hd : 0 ≤ d) (hb0 : 0 ≤ b) (hb1 : b ≤ 1)
    (hm0 : 0 ≤ mp) (hm1 : mp ≤ 1) (hmb : mp ≤ b) :
    (0 < mr →
      (d ≤ mr → hit_probability d mr b mp = Except.ok (b - (b - mp) * (d / mr))) ∧
      (mr < d → hit_probability d mr b mp = Except.ok 0)) ∧
    (mr ≤ 0 → hit_probability d mr b mp = Except.ok 0) := by
  refine ⟨fun hmr => ⟨fun hdr => ?_, fun hdr => ?_⟩, fun hmr => ?_⟩
  · exact hit_probability_in_range d mr b mp hd hdr hmr hb0 hb1 hm0 hm1 hmb
  · exact hit_probability_out_of_range d mr b mp hd hdr hmr hb0 hb1 hm0 hm1 hmb
  · unfold hit_probability
    rw [if_neg (not_lt.mpr hd), if_pos hmr]

/-- Witness for C1 at `d = 5`, `max_range = 10`, `base = 4/5`,
`min_p = 1/10`: the in-range value is `9/20`; at `d = 15` the probability
is `0`; and with `max_range = -1` the probability is `0`. -/
theorem hit_probability_contract_witness :
    hit_probability 5 10 (4/5) (1/10) = Except.ok (9/20) ∧
    hit_probability 15 10 (4/5) (1/10) = Except.ok 0 ∧
    hit_probability 5 (-1) (4/5) (1/10) = Except.ok 0 := by
  have h := hit_probability_contract 5 10 (4/5) (1/10)
    (by norm_num) (by norm_num) (by norm_num) (by norm_num) (by norm_num) (by norm_num)
  have h2 := hit_probability_contract 15 10 (4/5) (1/10)
    (by norm_num) (by norm_num) (by norm_num) (by norm_num) (by norm_num) (by norm_num)
  have h3 := hit_probability_contract 5 (-1) (4/5) (1/10)
    (by norm_num) (by norm_num) (by norm_num) (by norm_num) (by norm_num) (by norm_num)
  refine ⟨?_, ?_, ?_⟩
  · have hv := (h.1 (by norm_num)).1 (by norm_num)
    rw [hv]
    norm_num
  · exact (h2.1 (by norm_num)).2 (by norm_num)
  · exact h3.2 (by norm_num)

/-- C7: with valid parameters and `0 ≤ d1 ≤ d2 ≤ max_range`, the hit
probability is monotonically non-increasing, always lies in
`[min_p, base]`, equals `base` at distance `0` and equals `min_p` at
distance `max_range`. -/
theorem hit_probability_curve (mr b mp d1 d2 : ℚ)
    (hb0 : 0 ≤ b) (hb1 : b ≤ 1) (hm0 : 0 ≤ mp) (hm1 : mp ≤ 1) (hmb : mp ≤ b)
    (hmr : 0 < mr) (hd1 : 0 ≤ d1) (h12 : d1 ≤ d2) (h2r : d2 ≤ mr) :
    (∀ p1 p2 : ℚ, hit_probability d1 mr b mp = Except.ok p1 →
      hit_probability d2 mr b mp = Except.ok p2 →
      p2 ≤ p1 ∧ mp ≤ p1 ∧ p1 ≤ b ∧ mp ≤ p2 ∧ p2 ≤ b) ∧
    hit_probability 0 mr b mp = Except.ok b ∧
    hit_probability mr mr b mp = Except.ok mp := by
  have hv1 := hit_probability_in_range d1 mr b mp hd1 (le_trans h12 h2r) hmr
    hb0 hb1 hm0 hm1 hmb
  have hv2 := hit_probability_in_range d2 mr b mp (le_trans hd1 h12) h2r hmr
    hb0 hb1 hm0 hm1 hmb
  have hv0 := hit_probability_in_range 0 mr b mp le_rfl (le_of_lt hmr) hmr
    hb0 hb1 hm0 hm1 hmb
  have hvr := hit_probability_in_range mr mr b mp (le_of_lt hmr) le_rfl hmr
    hb0 hb1 hm0 hm1 hmb
  have hbounds : ∀ d : ℚ, 0 ≤ d → d ≤ mr →
      mp ≤ b - (b - mp) * (d / mr) ∧ b - (b - mp) * (d / mr) ≤ b := by
    intro d hd hdr
    have hfrac0 : (0 : ℚ) ≤ d / mr := div_nonneg hd (le_of_lt hmr)
    have hfrac1 : d / mr ≤ 1 := (div_le_one hmr).mpr hdr
    constructor
    · nlinarith
    · nlinarith
  refine ⟨fun p1 p2 h1 h2 => ?_, ?_, ?_⟩
  · rw [hv1] at h1
    rw [hv2] at h2
    have hp1 : b - (b - mp) * (d1 / mr) = p1 := Except.ok.inj h1
    have hp2 : b - (b - mp) * (d2 / mr) = p2 := Except.ok.inj h2
    have hmono : d1 / mr ≤ d2 / mr := by gcongr
    have hb1' := hbounds d1 hd1 (le_trans h12 h2r)
    have hb2' := hbounds d2 (le_trans hd1 h12) h2r
    rw [← hp1, ← hp2]
    refine ⟨?_, hb1'.1, hb1'.2, hb2'.1, hb2'.2⟩
    nlinarith
  · rw [hv0]
    norm_num
  · rw [hvr, div_self (ne_of_gt hmr)]
    norm_num

/-- Witness for C7 at `mr = 10`, `b = 4/5`, `mp = 1/10`, `d1 = 2`,
`d2 = 6`: `p(2) = 33/50 ≥ p(6) = 19/50`, both in `[1/10, 4/5]`,
`p(0) = 4/5`, `p(10) = 1/10`. -/
theorem hit_probability_curve_witness :
    ((19:ℚ)/50 ≤ (33:ℚ)/50 ∧ (1:ℚ)/10 ≤ 33/50 ∧ (33:ℚ)/50 ≤ 4/5) ∧
    hit_probability 0 10 (4/5) (1/10) = Except.ok (4/5) ∧
    hit_probability 10 10 (4/5) (1/10) = Except.ok (1/10) := by
  have h := hit_probability_curve 10 (4/5) (1/10) 2 6
    (by norm_num) (by norm_num) (by norm_num) (by norm_num) (by norm_num)
    (by norm_num) (by norm_num) (by norm_num) (by norm_num)
  have h1 : hit_probability 2 10 (4/5) (1/10) = Except.ok (33/50) := by
    rw [hit_probability_in_range 2 10 (4/5) (1/10) (by norm_num) (by norm_num)
      (by norm_num) (by norm_num) (by norm_num) (by norm_num) (by norm_num) (by norm_num)]
    norm_num
  have h2 : hit_probability 6 10 (4/5) (1/10) = Except.ok (19/50) := by
    rw [hit_probability_in_range 6 10 (4/5) (1/10) (by norm_num) (by norm_num)
      (by norm_num) (by norm_num) (by norm_num) (by norm_num) (by norm_num) (by norm_num)]
    norm_num
  have hm := h.1 (33/50) (19/50) h1 h2
  exact ⟨⟨hm.1, hm.2.1, hm.2.2.1⟩, h.2.1, h.2.2⟩

/-! ## Entity model (`src/env/entities/base.py`, `src/env/entities/aircraft.py`) -/

/-- Modelled from the spec: `Team` from `core/types.py` (file not under
`src/`); teams are `BLUE | RED`. -/
inductive Team where
  | BLUE
  | RED
deriving DecidableEq, Repr

/-- Modelled from the spec: `EntityKind` from `core/types.py` (file not
under `src/`); the variants named by the spec plus the base-class default
`UNKNOWN` used in `src/env/entities/base.py`. -/
inductive EntityKind where
  | AWACS
  | AIRCRAFT
  | DECOY
  | SAM
  | UNKNOWN
deriving DecidableEq, Repr

/-- Grid positions are integer `(x, y)` cells. -/
def GridPos : Type := ℤ × ℤ

instance : DecidableEq GridPos := by
  unfold GridPos
  infer_instance

/-- The `Aircraft` dataclass of `src/env/entities/aircraft.py`: base
`Entity` state (team, pos, name, id, alive, radar_range) plus the
aircraft-specific combat stats.  The type-defining fields
(`kind = AIRCRAFT`, `can_move = can_shoot = True`) are per-variant
constants and are not stored. -/
structure Aircraft where
  team : Team
  pos : GridPos
  name : Option String
  id : ℕ
  alive : Bool
  radar_range : ℚ
  missiles : ℤ
  missile_max_range : ℚ
  base_hit_prob : ℚ
  min_hit_prob : ℚ
deriving DecidableEq

/-- Embedding of `Aircraft` dataclass construction: runs
`Entity.__post_init__` (radar-range check, `src/env/entities/base.py`)
followed by `Aircraft.__post_init__` (missiles, missile range and
hit-probability range checks, `src/env/entities/aircraft.py`), raising
`ValueError` (modelled by `Except.error`) on the first violated check. -/
def mkAircraft (team : Team) (pos : GridPos) (name : Option String) (id : ℕ)
    (radar_range : ℚ) (missiles : ℤ)
    (missile_max_range base_hit_prob min_hit_prob : ℚ) :
    Except String Aircraft :=
  if radar_range < 0 then
    Except.error "Radar range cannot be negative"
  else if missiles < 0 then
    Except.error "Missiles cannot be negative"
  else if missile_max_range ≤ 0 then
    Except.error "Missile range must be positive"
  else if ¬ (0 ≤ base_hit_prob ∧ base_hit_prob ≤ 1) then
    Except.error "Base hit probability must be in [0,1]"
  else if ¬ (0 ≤ min_hit_prob ∧ min_hit_prob ≤ 1) then
    Except.error "Min hit probability must be in [0,1]"
  else
    Except.ok { team := team, pos := pos, name := name, id := id, alive := true,
                radar_range := radar_range, missiles := missiles,
                missile_max_range := missile_max_range,
                base_hit_prob := base_hit_prob, min_hit_prob := min_hit_prob }

/-- C2 counterexample: constructing an `Aircraft` with
`base_hit_prob = 1/10 < min_hit_prob = 9/10` succeeds — `__post_init__`
never compares `min_hit_prob` with `base_hit_prob`, so the claimed
construction-time invariant `min_hit_prob ≤ base_hit_prob` is not
enforced. -/
theorem mkAircraft_accepts_min_gt_base :
    mkAircraft Team.BLUE (0, 0) none 1 5 3 4 (1/10) (9/10)
      = Except.ok { team := Team.BLUE, pos := (0, 0), name := none, id := 1,
                    alive := true, radar_range := 5, missiles := 3,
                    missile_max_range := 4, base_hit_prob := 1/10,
                    min_hit_prob := 9/10 } ∧
    ¬ ((9:ℚ)/10 ≤ (1:ℚ)/10) := by
  constructor
  · unfold mkAircraft
    rw [if_neg (by norm_num), if_neg (by norm_num), if_neg (by norm_num),
      if_neg (not_not_intro (by norm_num)), if_neg (not_not_intro (by norm_num))]
  · norm_num

/-- C2 (amended): `Aircraft` construction succeeds exactly when
`radar_range ≥ 0`, `missiles ≥ 0`, `missile_max_range > 0` and both hit
probabilities lie in `[0,1]`; every constructed aircraft satisfies those
constraints (the relation `min_hit_prob ≤ base_hit_prob` is not checked
at construction). -/
theorem mkAircraft_validates (t : Team) (p : GridPos) (n : Option String)
    (i : ℕ) (rr : ℚ) (m : ℤ) (mmr b mp : ℚ) :
    ((mkAircraft t p n i rr m mmr b mp).isOk = true ↔
      (0 ≤ rr ∧ 0 ≤ m ∧ 0 < mmr ∧ (0 ≤ b ∧ b ≤ 1) ∧ (0 ≤ mp ∧ mp ≤ 1))) ∧
    (∀ a : Aircraft, mkAircraft t p n i rr m mmr b mp = Except.ok a →
      0 ≤ a.radar_range ∧ 0 ≤ a.missiles ∧ 0 < a.missile_max_range ∧
      0 ≤ a.base_hit_prob ∧ a.base_hit_prob ≤ 1 ∧
      0 ≤ a.min_hit_prob ∧ a.min_hit_prob ≤ 1) := by
  unfold mkAircraft
  constructor
  · split_ifs with h1 h2 h3 h4 h5
    all_goals
      first
        | (refine iff_of_true (by simp [Except.isOk, Except.toBool]) ?_
           refine ⟨by linarith, by linarith, by linarith, ?_, ?_⟩ <;> tauto)
        | (refine iff_of_false (by simp [Except.isOk, Except.toBool]) ?_
           rintro ⟨hrr, hm, hmmr, ⟨hb0, hb1⟩, hmp0, hmp1⟩
           first
             | linarith
             | tauto)
  · intro a ha
    split_ifs at ha with h1 h2 h3 h4 h5
    all_goals
      first
        | exact absurd ha (by simp only [reduceCtorEq, ne_eq, not_false_eq_true])
        | (have hrec := Except.ok.inj ha
           subst hrec
           exact ⟨show (0:ℚ) ≤ rr by linarith, show (0:ℤ) ≤ m by linarith,
             show (0:ℚ) < mmr by linarith, h4.1, h4.2, h5.1, h5.2⟩)

/-- Witness for C2 (amended): a fully valid construction succeeds, and a
construction with negative missiles fails. -/
theorem mkAircraft_validates_witness :
    ((mkAircraft Team.RED (1, 2) none 7 5 3 4 (4/5) (1/10)).isOk = true) ∧
    ((mkAircraft Team.RED (1, 2) none 7 5 (-1) 4 (4/5) (1/10)).isOk = false) := by
  have h1 := (mkAircraft_validates Team.RED (1, 2) none 7 5 3 4 (4/5) (1/10)).1
  have h2 := (mkAircraft_validates Team.RED (1, 2) none 7 5 (-1) 4 (4/5) (1/10)).1
  constructor
  · exact h1.mpr ⟨by norm_num, by norm_num, by norm_num, ⟨by norm_num, by norm_num⟩,
      ⟨by norm_num, by norm_num⟩⟩
  · by_contra h
    have : (mkAircraft Team.RED (1, 2) none 7 5 (-1) 4 (4/5) (1/10)).isOk = true := by
      revert h
      cases (mkAircraft Team.RED (1, 2) none 7 5 (-1) 4 (4/5) (1/10)).isOk <;> simp
    have := h2.mp this
    norm_num at this

/-! ## Entity serialization (`Entity.to_dict` / `Entity.from_dict`,
`src/env/entities/base.py` and `src/env/entities/aircraft.py`; the
`AWACS`, `Decoy` and `SAM` subclasses are not under `src/` and are
modelled from the spec). -/

/-- Modelled from the spec: the `AWACS` entity variant (source file not
under `src/`) — "long-range unarmed sensor platform": base `Entity` state
only, with a large radar range. -/
structure AWACS where
  team : Team
  pos : GridPos
  name : Option String
  id : ℕ
  alive : Bool
  radar_range : ℚ
deriving DecidableEq

/-- Modelled from the spec: the `Decoy` entity variant (source file not
under `src/`) — "can_move only, no radar": base `Entity` state only. -/
structure Decoy where
  team : Team
  pos : GridPos
  name : Option String
  id : ℕ
  alive : Bool
  radar_range : ℚ
deriving DecidableEq

/-- Modelled from the spec: the `SAM` entity variant (source file not
under `src/`) — stationary, armed, toggleable: base `Entity` state plus
missile stats and the SAM-only `on` flag and `cooldown_remaining`
counter. -/
structure SAM where
  team : Team
  pos : GridPos
  name : Option String
  id : ℕ
  alive : Bool
  radar_range : ℚ
  missiles : ℤ
  missile_max_range : ℚ
  base_hit_prob : ℚ
  min_hit_prob : ℚ
  «on» : Bool
  cooldown_remaining : ℤ
deriving DecidableEq

/-- The polymorphic entity union (spec §3: variants AWACS, Aircraft,
Decoy, SAM). -/
inductive Entity where
  | aircraft (a : Aircraft)
  | awacs (w : AWACS)
  | decoy (dc : Decoy)
  | sam (s : SAM)
deriving DecidableEq

/-- The JSON-like dictionary produced by `Entity.to_dict`: the base
fields written by `Entity.to_dict` in `src/env/entities/base.py` plus the
variant-specific fields (absent keys modelled as `none`). -/
structure EntityDict where
  type : String
  id : ℕ
  team : Team
  pos : GridPos
  kind : EntityKind
  name : Option String
  alive : Bool
  radar_range : ℚ
  can_move : Bool
  can_shoot : Bool
  missiles : Option ℤ
  missile_max_range : Option ℚ
  base_hit_prob : Option ℚ
  min_hit_prob : Option ℚ
  «on» : Option Bool
  cooldown_remaining : Option ℤ
deriving DecidableEq

/-- `Entity.to_dict`: base fields as written by
`src/env/entities/base.py`, with the aircraft payload as written by
`Aircraft.to_dict` in `src/env/entities/aircraft.py`; the AWACS/Decoy/SAM
payloads are modelled from the spec (their sources are not under
`src/`). -/
def Entity.to_dict : Entity → EntityDict
  | Entity.aircraft a =>
      { type := "Aircraft", id := a.id, team := a.team, pos := a.pos,
        kind := EntityKind.AIRCRAFT, name := a.name, alive := a.alive,
        radar_range := a.radar_range, can_move := true, can_shoot := true,
        missiles := some a.missiles,
        missile_max_range := some a.missile_max_range,
        base_hit_prob := some a.base_hit_prob,
        min_hit_prob := some a.min_hit_prob,
        «on» := none, cooldown_remaining := none }
  | Entity.awacs w =>
      { type := "AWACS", id := w.id, team := w.team, pos := w.pos,
        kind := EntityKind.AWACS, name := w.name, alive := w.alive,
        radar_range := w.radar_range, can_move := true, can_shoot := false,
        missiles := none, missile_max_range := none,
        base_hit_prob := none, min_hit_prob := none,
        «on» := none, cooldown_remaining := none }
  | Entity.decoy dc =>
      { type := "Decoy", id := dc.id, team := dc.team, pos := dc.pos,
        kind := EntityKind.DECOY, name := dc.name, alive := dc.alive,
        radar_range := dc.radar_range, can_move := true, can_shoot := false,
        missiles := none, missile_max_range := none,
        base_hit_prob := none, min_hit_prob := none,
        «on» := none, cooldown_remaining := none }
  | Entity.sam s =>
      { type := "SAM", id := s.id, team := s.team, pos := s.pos,
        kind := EntityKind.SAM, name := s.name, alive := s.alive,
        radar_range := s.radar_range, can_move := false, can_shoot := true,
        missiles := some s.missiles,
        missile_max_range := some s.missile_max_range,
        base_hit_prob := some s.base_hit_prob,
        min_hit_prob := some s.min_hit_prob,
        «on» := some s.«on», cooldown_remaining := some s.cooldown_remaining }

/-- Modelled from the spec: `AWACS` construction (source not under
`src/`) runs the base `Entity.__post_init__` radar-range check. -/
def mkAWACS (team : Team) (pos : GridPos) (name : Option String) (id : ℕ)
    (radar_range : ℚ) : Except String AWACS :=
  if radar_range < 0 then
    Except.error "Radar range cannot be negative"
  else
    Except.ok { team := team, pos := pos, name := name, id := id,
                alive := true, radar_range := radar_range }

/-- Modelled from the spec: `Decoy` construction (source not under
`src/`) runs the base `Entity.__post_init__` radar-range check. -/
def mkDecoy (team : Team) (pos : GridPos) (name : Option String) (id : ℕ)
    (radar_range : ℚ) : Except String Decoy :=
  if radar_range < 0 then
    Except.error "Radar range cannot be negative"
  else
    Except.ok { team := team, pos := pos, name := name, id := id,
                alive := true, radar_range := radar_range }

/-- Modelled from the spec: `SAM` construction (source not under `src/`)
runs the base radar-range check plus the armed-variant checks of the
spec's entity invariant (missiles non-negative, positive missile range,
hit probabilities in `[0,1]`). -/
def mkSAM (team : Team) (pos : GridPos) (name : Option String) (id : ℕ)
    (radar_range : ℚ) (missiles : ℤ)
    (missile_max_range base_hit_prob min_hit_prob : ℚ)
    (onFlag : Bool) (cooldown_remaining : ℤ) : Except String SAM :=
  if radar_range < 0 then
    Except.error "Radar range cannot be negative"
  else if missiles < 0 then
    Except.error "Missiles cannot be negative"
  else if missile_max_range ≤ 0 then
    Except.error "Missile range must be positive"
  else if ¬ (0 ≤ base_hit_prob ∧ base_hit_prob ≤ 1) then
    Except.error "Base hit probability must be in [0,1]"
  else if ¬ (0 ≤ min_hit_prob ∧ min_hit_prob ≤ 1) then
    Except.error "Min hit probability must be in [0,1]"
  else
    Except.ok { team := team, pos := pos, name := name, id := id,
                alive := true, radar_range := radar_range,
                missiles := missiles, missile_max_range := missile_max_range,
                base_hit_prob := base_hit_prob, min_hit_prob := min_hit_prob,
                «on» := onFlag, cooldown_remaining := cooldown_remaining }

/-- `Entity.from_dict` (`src/env/entities/base.py`): dispatch on the
`type` tag (unknown tags raise `ValueError`), let the variant rebuild
itself from the payload (running its constructor validation), then
restore `id` and `alive`.  Missing payload keys raise `KeyError`
(modelled by `Except.error`). -/
def Entity.from_dict (d : EntityDict) : Except String Entity :=
  if d.type = "Aircraft" then
    match d.missiles, d.missile_max_range, d.base_hit_prob, d.min_hit_prob with
    | some m, some mmr, some bhp, some mhp =>
        match mkAircraft d.team d.pos d.name d.id d.radar_range m mmr bhp mhp with
        | Except.ok a => Except.ok (Entity.aircraft { a with alive := d.alive })
        | Except.error s => Except.error s
    | _, _, _, _ => Except.error "KeyError"
  else if d.type = "AWACS" then
    match mkAWACS d.team d.pos d.name d.id d.radar_range with
    | Except.ok w => Except.ok (Entity.awacs { w with alive := d.alive })
    | Except.error s => Except.error s
  else if d.type = "Decoy" then
    match mkDecoy d.team d.pos d.name d.id d.radar_range with
    | Except.ok dc => Except.ok (Entity.decoy { dc with alive := d.alive })
    | Except.error s => Except.error s
  else if d.type = "SAM" then
    match d.missiles, d.missile_max_range, d.base_hit_prob, d.min_hit_prob,
        d.«on», d.cooldown_remaining with
    | some m, some mmr, some bhp, some mhp, some onv, some cd =>
        match mkSAM d.team d.pos d.name d.id d.radar_range m mmr bhp mhp onv cd with
        | Except.ok s => Except.ok (Entity.sam { s with alive := d.alive })
        | Except.error s => Except.error s
    | _, _, _, _, _, _ => Except.error "KeyError"
  else
    Except.error "Unknown entity type"

/-- Construction invariants of an `Aircraft` (everything its
`__post_init__` checks). -/
def Aircraft.wf (a : Aircraft) : Prop :=
  0 ≤ a.radar_range ∧ 0 ≤ a.missiles ∧ 0 < a.missile_max_range ∧
  0 ≤ a.base_hit_prob ∧ a.base_hit_prob ≤ 1 ∧
  0 ≤ a.min_hit_prob ∧ a.min_hit_prob ≤ 1

/-- Construction invariants of a `SAM`. -/
def SAM.wf (s : SAM) : Prop :=
  0 ≤ s.radar_range ∧ 0 ≤ s.missiles ∧ 0 < s.missile_max_range ∧
  0 ≤ s.base_hit_prob ∧ s.base_hit_prob ≤ 1 ∧
  0 ≤ s.min_hit_prob ∧ s.min_hit_prob ≤ 1

/-- Construction invariants of an entity: exactly the checks its
constructor runs, so `wf` holds of every entity the engine can have
built. -/
def Entity.wf : Entity → Prop
  | Entity.aircraft a => a.wf
  | Entity.awacs w => 0 ≤ w.radar_range
  | Entity.decoy dc => 0 ≤ dc.radar_range
  | Entity.sam s => s.wf

/-- Helper: a well-formed aircraft's constructor succeeds and rebuilds the
record (with the freshly-constructed `alive := true`). -/
theorem mkAircraft_of_wf (a : Aircraft) (h : a.wf) :
    mkAircraft a.team a.pos a.name a.id a.radar_range a.missiles
      a.missile_max_range a.base_hit_prob a.min_hit_prob
      = Except.ok { a with alive := true } := by
  obtain ⟨h1, h2, h3, h4, h5, h6, h7⟩ := h
  unfold mkAircraft
  rw [if_neg (not_lt.mpr h1), if_neg (not_lt.mpr h2), if_neg (not_le.mpr h3),
    if_neg (not_not_intro ⟨h4, h5⟩), if_neg (not_not_intro ⟨h6, h7⟩)]

/-- Helper: a well-formed SAM's constructor succeeds and rebuilds the
record. -/
theorem mkSAM_of_wf (s : SAM) (h : s.wf) :
    mkSAM s.team s.pos s.name s.id s.radar_range s.missiles
      s.missile_max_range s.base_hit_prob s.min_hit_prob s.«on» s.cooldown_remaining
      = Except.ok { s with alive := true } := by
  obtain ⟨h1, h2, h3, h4, h5, h6, h7⟩ := h
  unfold mkSAM
  rw [if_neg (not_lt.mpr h1), if_neg (not_lt.mpr h2), if_neg (not_le.mpr h3),
    if_neg (not_not_intro ⟨h4, h5⟩), if_neg (not_not_intro ⟨h6, h7⟩)]

/-- C9: for every well-formed entity of any variant,
`Entity.from_dict (Entity.to_dict e)` reproduces `e` exactly — same team,
position, kind (via the type tag), alive flag, id, name, and all
type-specific stats. -/
theorem entity_roundtrip (e : Entity) (h : e.wf) :
    Entity.from_dict (Entity.to_dict e) = Except.ok e := by
  cases e with
  | aircraft a =>
      have hmk := mkAircraft_of_wf a h
      simp only [Entity.to_dict, Entity.from_dict, String.reduceEq, reduceIte]
      rw [hmk]
  | awacs w =>
      have hrr : ¬ w.radar_range < 0 := not_lt.mpr h
      simp only [Entity.to_dict, Entity.from_dict, String.reduceEq, reduceIte,
        mkAWACS]
      rw [if_neg hrr]
  | decoy dc =>
      have hrr : ¬ dc.radar_range < 0 := not_lt.mpr h
      simp only [Entity.to_dict, Entity.from_dict, String.reduceEq, reduceIte,
        mkDecoy]
      rw [if_neg hrr]
  | sam s =>
      have hmk := mkSAM_of_wf s h
      simp only [Entity.to_dict, Entity.from_dict, String.reduceEq, reduceIte]
      rw [hmk]

/-- Witness for C9: round trip of a concrete aircraft. -/
theorem entity_roundtrip_witness :
    Entity.from_dict (Entity.to_dict (Entity.aircraft
      { team := Team.BLUE, pos := (2, 3), name := some "f16", id := 4,
        alive := true, radar_range := 6, missiles := 2,
        missile_max_range := 4, base_hit_prob := 4/5, min_hit_prob := 1/10 }))
      = Except.ok (Entity.aircraft
      { team := Team.BLUE, pos := (2, 3), name := some "f16", id := 4,
        alive := true, radar_range := 6, missiles := 2,
        missile_max_range := 4, base_hit_prob := 4/5, min_hit_prob := 1/10 }) := by
  apply entity_roundtrip
  exact ⟨by norm_num, by norm_num, by norm_num, by norm_num, by norm_num,
    by norm_num, by norm_num⟩

/-! ## The runtime entity/world model used by the mechanics

The resolvers (`src/env/mechanics/sensors.py`, `src/env/mechanics/combat.py`)
access entities through a shared attribute surface (`id`, `team`, `kind`,
`alive`, `pos`, `can_shoot`, `radar_range`, `missiles`, hit-probability
stats, and the SAM-only `on`/cooldown state).  We embed that surface as
one flat record, which is the spec's own recommendation for the entity
union (spec §9). -/

/-- The mutable entity attributes read and written by the mechanics. -/
structure Ent where
  id : ℕ
  team : Team
  kind : EntityKind
  alive : Bool
  pos : GridPos
  can_shoot : Bool
  radar_range : ℚ
  «on» : Bool
  cooldown_remaining : ℤ
  cooldown_max : ℤ
  missiles : ℤ
  missile_max_range : ℚ
  base_hit_prob : ℚ
  min_hit_prob : ℚ
deriving DecidableEq

/-- `Entity.get_active_radar_range` (`src/env/entities/base.py`) returns
`radar_range`; the `SAM` override (source not under `src/`) is modelled
from the spec: a SAM returns `0` when `on == false`. -/
def Ent.get_active_radar_range (e : Ent) : ℚ :=
  if e.kind = EntityKind.SAM ∧ e.«on» = false then 0 else e.radar_range

/-- The world state surface the resolvers use.  `WorldState` itself is not
under `src/`; this record is modelled from the spec (§3 WorldState): the
entity collection, the grid's distance metric (spec: Euclidean; kept as an
explicit function since no claim depends on the metric), the pending-kill
set (insertion-ordered), the seeded RNG modelled as its stream of future
uniform draws, and the per-team "enemy fired" records. -/
structure World where
  entities : List Ent
  dist : GridPos → GridPos → ℚ
  pending_kills : List ℕ
  rolls : List ℚ
  fired_blue : Finset ℕ
  fired_red : Finset ℕ

/-- `WorldState.get_entity`: first entity with the given id. -/
def World.get_entity (w : World) (i : ℕ) : Option Ent :=
  w.entities.find? (fun e => e.id = i)

/-- `WorldState.get_alive_entities`. -/
def World.get_alive_entities (w : World) : List Ent :=
  w.entities.filter (fun e => e.alive)

/-- `WorldState.mark_for_kill` (modelled from the spec: pending kills form
a set; insertion order retained). -/
def World.mark_for_kill (w : World) (i : ℕ) : World :=
  if i ∈ w.pending_kills then w
  else { w with pending_kills := w.pending_kills ++ [i] }

/-! ## Observations (`src/env/core/observations.py`) -/

/-- The `Observation` dataclass: id, apparent kind, team, position, and
the set of observer ids. -/
structure Observation where
  entity_id : ℕ
  kind : EntityKind
  team : Team
  position : GridPos
  seen_by : Finset ℕ
deriving DecidableEq

/-- `ObservationSet.add`: the `observations` dict keyed by `entity_id`,
embedded as an insertion-ordered list with unique ids.  Adding an
observation of an already-recorded entity merges the `seen_by` sets in
place; otherwise the observation is appended. -/
def obsAdd (s : List Observation) (o : Observation) : List Observation :=
  if o.entity_id ∈ s.map Observation.entity_id then
    s.map (fun x =>
      if x.entity_id = o.entity_id then { x with seen_by := x.seen_by ∪ o.seen_by }
      else x)
  else s ++ [o]

/-- `ObservationSet.add_many`. -/
def obsAddMany (s : List Observation) (l : List Observation) : List Observation :=
  l.foldl obsAdd s

/-- `merge_observations`: fold a list of observations into an empty
`ObservationSet` and return its entries. -/
def merge_observations (l : List Observation) : List Observation :=
  obsAddMany [] l

/-- `ObservationSet.get_enemy_ids`: ids of all recorded observations whose
team differs from the observer team. -/
def get_enemy_ids (s : List Observation) (observer_team : Team) : Finset ℕ :=
  ((s.filter (fun o => o.team ≠ observer_team)).map Observation.entity_id).toFinset

/-! ## Sensor system (`src/env/mechanics/sensors.py`) -/

/-- `SensorSystem._is_sam_invisible`: true exactly for a SAM whose radar
is off (the `isinstance(entity, SAM)` test is modelled by the kind tag;
the `SAM` class itself is not under `src/`). -/
def is_sam_invisible (e : Ent) : Bool :=
  if e.kind ≠ EntityKind.SAM then false
  else !e.«on»

/-- `SensorSystem._get_apparent_kind`: own team sees the truth; an enemy
decoy appears as an aircraft; everything else appears as it is. -/
def get_apparent_kind (target observer : Ent) : EntityKind :=
  if target.team = observer.team then target.kind
  else if target.kind = EntityKind.DECOY then EntityKind.AIRCRAFT
  else target.kind

/-- `SensorSystem.compute_entity_observations`: a dead or radar-less
observer sees nothing; otherwise every other alive, non-stealthed entity
within the active radar range yields one observation carrying its
apparent kind. -/
def compute_entity_observations (w : World) (observer : Ent) : List Observation :=
  if observer.alive = false then []
  else if observer.get_active_radar_range ≤ 0 then []
  else
    (w.entities.filter (fun t =>
        decide (t.id ≠ observer.id) && t.alive && !(is_sam_invisible t) &&
        decide (w.dist observer.pos t.pos ≤ observer.get_active_radar_range))).map
      (fun t =>
        { entity_id := t.id, kind := get_apparent_kind t observer,
          team := t.team, position := t.pos, seen_by := {observer.id} })

/-- The self-observation added in step 4 of
`SensorSystem.refresh_all_observations`. -/
def selfObs (e : Ent) : Observation :=
  { entity_id := e.id, kind := e.kind, team := e.team, position := e.pos,
    seen_by := {e.id} }

/-- The per-team fog-of-war cache.  `TeamView` is not under `src/`;
modelled from the spec (§3 TeamView): friendly ids plus the
`ObservationSet` of this turn's sightings (the fired-history flags are
independent state and are not needed here). -/
structure TeamView where
  friendly_ids : Finset ℕ
  observations : List Observation

/-- `SensorSystem.refresh_all_observations`, per team.  The source resets
both views and then loops over all alive entities, writing each entity's
friendly-id registration, merged observations, and self-observation into
its own team's view; since every write targets the acting entity's own
team view, the view of team `t` after the run is obtained by folding the
same steps over the alive entities of team `t` in order. -/
def refresh_all_observations (w : World) (t : Team) : TeamView :=
  let alive := w.get_alive_entities
  let mine := alive.filter (fun e => e.team = t)
  let afterObs := mine.foldl
    (fun obs e => obsAddMany obs (compute_entity_observations w e)) []
  let afterSelf := mine.foldl (fun obs e => obsAdd obs (selfObs e)) afterObs
  { friendly_ids := (mine.map Ent.id).toFinset, observations := afterSelf }

/-! ## Combat resolution (`src/env/mechanics/combat.py`) -/

/-- The `CombatResult` dataclass. -/
structure CombatResult where
  attacker_id : ℕ
  target_id : Option ℕ
  success : Bool
  hit : Option Bool
  distance : Option ℚ
  hit_prob : Option ℚ
  target_killed : Bool
  log : String
deriving DecidableEq

/-- `Entity.validate_action` + `Entity._validate_shoot`
(`src/env/entities/base.py`): alive, `can_shoot` capability,
`missiles > 0` (the `target_id` parameter is an integer by construction
here); the SAM-specific override (radar on and not mid-cooldown — its
source is not under `src/`) is modelled from the spec. -/
def validate_shoot_entity (attacker : Ent) : Bool :=
  attacker.alive && attacker.can_shoot && decide (0 < attacker.missiles) &&
    (if attacker.kind = EntityKind.SAM then
       attacker.«on» && decide (attacker.cooldown_remaining ≤ 0)
     else true)

/-- Modelled from the spec: `validate_action_in_world`
(`src/env/core/validation.py`, not under `src/`) — the entity-level
checks followed by the world-dependent checks of spec §4.5 step 2
(target exists and is alive, and is within the attacker's missile
range). -/
def validate_action_in_world (w : World) (attacker : Ent) (target_id : ℕ) : Bool :=
  validate_shoot_entity attacker &&
    (match w.get_entity target_id with
     | none => false
     | some target =>
         target.alive &&
           decide (w.dist attacker.pos target.pos ≤ attacker.missile_max_range))

/-- `TeamView.record_enemy_fired` on the target team's view (modelled
from the spec: the record of entities this team has seen fire). -/
def record_enemy_fired (w : World) (t : Team) (attacker_id : ℕ) : World :=
  match t with
  | Team.BLUE => { w with fired_blue := insert attacker_id w.fired_blue }
  | Team.RED => { w with fired_red := insert attacker_id w.fired_red }

/-- `CombatResolver.resolve_single`: validate; on failure return a no-op
result leaving the world untouched; on success compute distance and hit
probability (whose `ValueError`s propagate), draw one roll, always
consume one missile, start the SAM cooldown when the attacker is a SAM,
mark the target for death on a hit, and record the shot on the target
team's view. -/
def resolve_single (w : World) (attacker : Ent) (target_id : ℕ) :
    Except String (CombatResult × World) :=
  if validate_action_in_world w attacker target_id = false then
    Except.ok
      ({ attacker_id := attacker.id, target_id := some target_id, success := false,
         hit := none, distance := none, hit_prob := none, target_killed := false,
         log := "validation failed" }, w)
  else
    match w.get_entity target_id with
    | none =>
        Except.ok
          ({ attacker_id := attacker.id, target_id := some target_id, success := false,
             hit := none, distance := none, hit_prob := none, target_killed := false,
             log := "target invalid or dead" }, w)
    | some target =>
      if target.alive = false then
        Except.ok
          ({ attacker_id := attacker.id, target_id := some target_id, success := false,
             hit := none, distance := none, hit_prob := none, target_killed := false,
             log := "target invalid or dead" }, w)
      else
        let d := w.dist attacker.pos target.pos
        match hit_probability d attacker.missile_max_range
            attacker.base_hit_prob attacker.min_hit_prob with
        | Except.error s => Except.error s
        | Except.ok prob =>
          let roll := w.rolls.headD 1
          let hit := decide (roll ≤ prob)
          let entities1 := w.entities.map (fun e =>
            if e.id = attacker.id then { e with missiles := e.missiles - 1 } else e)
          let entities2 :=
            if attacker.kind = EntityKind.SAM then
              entities1.map (fun e =>
                if e.id = attacker.id then
                  { e with cooldown_remaining := e.cooldown_max }
                else e)
            else entities1
          let w1 := { w with entities := entities2, rolls := w.rolls.tail }
          let w2 := if hit then w1.mark_for_kill target.id else w1
          let w3 := record_enemy_fired w2 target.team attacker.id
          Except.ok
            ({ attacker_id := attacker.id, target_id := some target_id,
               success := true, hit := some hit, distance := some d,
               hit_prob := some prob, target_killed := hit,
               log := if hit then "HIT" else "MISS" }, w3)

/-- The per-shot loop of `CombatResolver.resolve_all`: resolve a sequence
of `(attacker_id, target_id)` shots in the given order, looking the
attacker up in the current world each time (Python mutates the entity
objects in place, so each iteration sees the current attributes). -/
def resolve_seq (w : World) : List (ℕ × ℕ) → Except String (List CombatResult × World)
  | [] => Except.ok ([], w)
  | (aid, tid) :: rest =>
    match w.get_entity aid with
    | none => resolve_seq w rest
    | some attacker =>
      match resolve_single w attacker tid with
      | Except.error s => Except.error s
      | Except.ok (r, w') =>
        match resolve_seq w' rest with
        | Except.error s => Except.error s
        | Except.ok (rs, w'') => Except.ok (r :: rs, w'')

/-- `CombatResolver._extract_kill_order`: target ids of results marked
`target_killed`, in result order. -/
def extract_kill_order (results : List CombatResult) : List ℕ :=
  results.filterMap (fun r => if r.target_killed then r.target_id else none)

/-- The `seen`-set loop of `CombatResolver.apply_pending_deaths`: keep
the ids of `kill_order` that are pending, first occurrence only, in
order. -/
def killIdsAux (pending : List ℕ) : List ℕ → Finset ℕ → List ℕ
  | [], _ => []
  | i :: rest, seen =>
    if i ∈ pending ∧ i ∉ seen then i :: killIdsAux pending rest (insert i seen)
    else killIdsAux pending rest seen

/-- The kill-application loop of `CombatResolver.apply_pending_deaths`:
for each id in order, if a matching entity exists and is alive, set
`alive := false`, emit one death log line and record the id.  Returns
`(death_logs, killed_entity_ids, final_entities)`. -/
def applyKills : List Ent → List ℕ → List String × List ℕ × List Ent
  | entities, [] => ([], [], entities)
  | entities, i :: rest =>
    match entities.find? (fun e => e.id = i) with
    | some e =>
      if e.alive then
        let entities' := entities.map (fun x =>
          if x.id = i then { x with alive := false } else x)
        let out := applyKills entities' rest
        ("destroyed" :: out.1, i :: out.2.1, out.2.2)
      else applyKills entities rest
    | none => applyKills entities rest

/-- `CombatResolver.apply_pending_deaths`: compute the kill ids (from
`kill_order` when given, else the raw pending set), apply the kills and
clear the pending set. -/
def apply_pending_deaths (w : World) (kill_order : Option (List ℕ)) :
    (List String × List ℕ) × World :=
  let kill_ids :=
    match kill_order with
    | none => w.pending_kills
    | some ko => killIdsAux w.pending_kills ko ∅
  let out := applyKills w.entities kill_ids
  ((out.1, out.2.1), { w with entities := out.2.2, pending_kills := [] })

/-! ## C5: decoy deception -/

/-- Helper: every observation emitted by
`compute_entity_observations` comes from some world entity and carries
that entity's apparent kind, team and position, and the entity passed
the visibility filters. -/
theorem mem_compute_entity_observations (w : World) (observer : Ent)
    (o : Observation) (ho : o ∈ compute_entity_observations w observer) :
    ∃ target ∈ w.entities, o.entity_id = target.id ∧ o.team = target.team ∧
      o.kind = get_apparent_kind target observer ∧
      is_sam_invisible target = false ∧ target.alive = true ∧
      target.id ≠ observer.id := by
  unfold compute_entity_observations at ho
  split_ifs at ho with h1 h2
  · exact absurd ho (List.not_mem_nil o)
  · exact absurd ho (List.not_mem_nil o)
  · rw [List.mem_map] at ho
    obtain ⟨t, ht, rfl⟩ := ho
    rw [List.mem_filter] at ht
    have hc := ht.2
    simp only [Bool.and_eq_true, decide_eq_true_eq, Bool.not_eq_true'] at hc
    exact ⟨t, ht.1, rfl, rfl, rfl, hc.1.2, hc.1.1.2, hc.1.1.1⟩

/-- C5: an enemy decoy's apparent kind is always `AIRCRAFT`; a target on
the observer's own team always shows its true kind; and every observation
emitted by the sensor computation carries the apparent kind of the entity
it observes. -/
theorem decoy_deception (target observer : Ent) (w : World) :
    (target.team ≠ observer.team → target.kind = EntityKind.DECOY →
      get_apparent_kind target observer = EntityKind.AIRCRAFT) ∧
    (target.team = observer.team →
      get_apparent_kind target observer = target.kind) ∧
    (∀ o ∈ compute_entity_observations w observer,
      ∃ t ∈ w.entities, o.entity_id = t.id ∧
        o.kind = get_apparent_kind t observer) := by
  refine ⟨fun hteam hkind => ?_, fun hteam => ?_, fun o ho => ?_⟩
  · unfold get_apparent_kind
    rw [if_neg hteam, if_pos hkind]
  · unfold get_apparent_kind
    rw [if_pos hteam]
  · obtain ⟨t, ht, h1, _, h3, _⟩ := mem_compute_entity_observations w observer o ho
    exact ⟨t, ht, h1, h3⟩

/-- Witness for C5: a concrete red decoy appears as an aircraft to a blue
observer, and as a decoy to a red observer. -/
theorem decoy_deception_witness :
    get_apparent_kind
      { id := 1, team := Team.RED, kind := EntityKind.DECOY, alive := true,
        pos := (0, 0), can_shoot := false, radar_range := 0, «on» := true,
        cooldown_remaining := 0, cooldown_max := 0, missiles := 0,
        missile_max_range := 1, base_hit_prob := 0, min_hit_prob := 0 }
      { id := 2, team := Team.BLUE, kind := EntityKind.AIRCRAFT, alive := true,
        pos := (1, 0), can_shoot := true, radar_range := 5, «on» := true,
        cooldown_remaining := 0, cooldown_max := 0, missiles := 2,
        missile_max_range := 4, base_hit_prob := 4/5, min_hit_prob := 1/10 }
      = EntityKind.AIRCRAFT ∧
    get_apparent_kind
      { id := 1, team := Team.RED, kind := EntityKind.DECOY, alive := true,
        pos := (0, 0), can_shoot := false, radar_range := 0, «on» := true,
        cooldown_remaining := 0, cooldown_max := 0, missiles := 0,
        missile_max_range := 1, base_hit_prob := 0, min_hit_prob := 0 }
      { id := 3, team := Team.RED, kind := EntityKind.AIRCRAFT, alive := true,
        pos := (1, 1), can_shoot := true, radar_range := 5, «on» := true,
        cooldown_remaining := 0, cooldown_max := 0, missiles := 2,
        missile_max_range := 4, base_hit_prob := 4/5, min_hit_prob := 1/10 }
      = EntityKind.DECOY := by
  constructor
  · exact (decoy_deception _ _
      { entities := [], dist := fun _ _ => 0, pending_kills := [], rolls := [],
        fired_blue := ∅, fired_red := ∅ }).1 (by decide) rfl
  · exact ((decoy_deception _ _
      { entities := [], dist := fun _ _ => 0, pending_kills := [], rolls := [],
        fired_blue := ∅, fired_red := ∅ }).2).1 rfl

/-! ## C8: observation merging -/

/-- "Some observation of entity `i` in `s` was seen by observer `j`". -/
def hasObs (s : List Observation) (i j : ℕ) : Prop :=
  ∃ x ∈ s, x.entity_id = i ∧ j ∈ x.seen_by

theorem hasObs_nil (i j : ℕ) : ¬ hasObs [] i j := by
  rintro ⟨x, hx, -⟩
  exact List.not_mem_nil x hx

theorem hasObs_cons (o : Observation) (l : List Observation) (i j : ℕ) :
    hasObs (o :: l) i j ↔ (o.entity_id = i ∧ j ∈ o.seen_by) ∨ hasObs l i j := by
  unfold hasObs
  constructor
  · rintro ⟨x, hx, hid, hj⟩
    rcases List.mem_cons.mp hx with rfl | hx'
    · exact Or.inl ⟨hid, hj⟩
    · exact Or.inr ⟨x, hx', hid, hj⟩
  · rintro (⟨hid, hj⟩ | ⟨x, hx, hid, hj⟩)
    · exact ⟨o, List.mem_cons_self o l, hid, hj⟩
    · exact ⟨x, List.mem_cons_of_mem o hx, hid, hj⟩

/-- The recorded ids after an `add`: unchanged on a merge, one appended id
otherwise. -/
theorem keys_obsAdd (s : List Observation) (o : Observation) :
    (obsAdd s o).map Observation.entity_id =
      if o.entity_id ∈ s.map Observation.entity_id then s.map Observation.entity_id
      else s.map Observation.entity_id ++ [o.entity_id] := by
  unfold obsAdd
  split_ifs with h
  · rw [List.map_map]
    refine List.map_congr_left fun x hx => ?_
    by_cases hx2 : x.entity_id = o.entity_id
    · simp [Function.comp, hx2]
    · simp [Function.comp, hx2]
  · simp

theorem nodup_keys_obsAdd (s : List Observation) (o : Observation)
    (h : (s.map Observation.entity_id).Nodup) :
    ((obsAdd s o).map Observation.entity_id).Nodup := by
  rw [keys_obsAdd]
  split_ifs with hmem
  · exact h
  · simp [List.nodup_append, h, hmem]

theorem mem_keys_obsAdd (s : List Observation) (o : Observation) (i : ℕ) :
    i ∈ (obsAdd s o).map Observation.entity_id ↔
      i ∈ s.map Observation.entity_id ∨ i = o.entity_id := by
  rw [keys_obsAdd]
  split_ifs with hmem
  · constructor
    · exact Or.inl
    · rintro (h | rfl)
      · exact h
      · exact hmem
  · simp

/-- Seen-by accumulation across one `add`. -/
theorem hasObs_obsAdd (s : List Observation) (o : Observation) (i j : ℕ) :
    hasObs (obsAdd s o) i j ↔ hasObs s i j ∨ (o.entity_id = i ∧ j ∈ o.seen_by) := by
  unfold obsAdd
  split_ifs with hmem
  · constructor
    · rintro ⟨x', hx', hid, hj⟩
      rw [List.mem_map] at hx'
      obtain ⟨x, hx, rfl⟩ := hx'
      by_cases hx2 : x.entity_id = o.entity_id
      · rw [if_pos hx2] at hid hj
        rcases Finset.mem_union.mp hj with hj' | hj'
        · exact Or.inl ⟨x, hx, hid, hj'⟩
        · exact Or.inr ⟨hx2 ▸ hid, hj'⟩
      · rw [if_neg hx2] at hid hj
        exact Or.inl ⟨x, hx, hid, hj⟩
    · rintro (⟨x, hx, hid, hj⟩ | ⟨hid, hj⟩)
      · by_cases hx2 : x.entity_id = o.entity_id
        · refine ⟨_, List.mem_map_of_mem _ hx, ?_⟩
          rw [if_pos hx2]
          exact ⟨hid, Finset.mem_union_left _ hj⟩
        · refine ⟨_, List.mem_map_of_mem _ hx, ?_⟩
          rw [if_neg hx2]
          exact ⟨hid, hj⟩
      · rw [List.mem_map] at hmem
        obtain ⟨x0, hx0, hx0id⟩ := hmem
        refine ⟨_, List.mem_map_of_mem _ hx0, ?_⟩
        rw [if_pos hx0id]
        exact ⟨hx0id.trans hid, Finset.mem_union_right _ hj⟩
  · unfold hasObs
    constructor
    · rintro ⟨x, hx, hid, hj⟩
      rcases List.mem_append.mp hx with hx' | hx'
      · exact Or.inl ⟨x, hx', hid, hj⟩
      · rw [List.mem_singleton] at hx'
        subst hx'
        exact Or.inr ⟨hid, hj⟩
    · rintro (⟨x, hx, hid, hj⟩ | ⟨hid, hj⟩)
      · exact ⟨x, List.mem_append_left _ hx, hid, hj⟩
      · exact ⟨o, List.mem_append_right _ (List.mem_singleton_self o), hid, hj⟩

theorem nodup_keys_obsAddMany (l : List Observation) :
    ∀ s : List Observation, (s.map Observation.entity_id).Nodup →
      ((obsAddMany s l).map Observation.entity_id).Nodup := by
  induction l with
  | nil => intro s h; exact h
  | cons o l ih => intro s h; exact ih _ (nodup_keys_obsAdd s o h)

theorem mem_keys_obsAddMany (l : List Observation) :
    ∀ (s : List Observation) (i : ℕ),
      i ∈ (obsAddMany s l).map Observation.entity_id ↔
        i ∈ s.map Observation.entity_id ∨ i ∈ l.map Observation.entity_id := by
  induction l with
  | nil => intro s i; simp [obsAddMany]
  | cons o l ih =>
    intro s i
    have h0 : obsAddMany s (o :: l) = obsAddMany (obsAdd s o) l := rfl
    rw [h0, ih, mem_keys_obsAdd]
    simp only [List.map_cons, List.mem_cons]
    tauto

theorem hasObs_obsAddMany (l : List Observation) :
    ∀ (s : List Observation) (i j : ℕ),
      hasObs (obsAddMany s l) i j ↔ hasObs s i j ∨ hasObs l i j := by
  induction l with
  | nil =>
    intro s i j
    have h0 : obsAddMany s [] = s := rfl
    rw [h0]
    exact (or_iff_left (hasObs_nil i j)).symm
  | cons o l ih =>
    intro s i j
    have h0 : obsAddMany s (o :: l) = obsAddMany (obsAdd s o) l := rfl
    rw [h0, ih, hasObs_obsAdd, hasObs_cons]
    tauto

/-- C8: merging a turn's observations records every observed entity
exactly once (no-duplicate keys, and an `add` of an already-recorded
entity leaves the number of entries unchanged), and the recorded
observation's `seen_by` is exactly the union of the observer sets of all
merged observations of that entity. -/
theorem observation_merge (l : List Observation) (s : List Observation)
    (o : Observation) :
    (((merge_observations l).map Observation.entity_id).Nodup) ∧
    (∀ o' ∈ merge_observations l, ∀ j : ℕ,
      j ∈ o'.seen_by ↔ ∃ x ∈ l, x.entity_id = o'.entity_id ∧ j ∈ x.seen_by) ∧
    (∀ i : ℕ, i ∈ (merge_observations l).map Observation.entity_id ↔
      i ∈ l.map Observation.entity_id) ∧
    ((obsAdd s o).length =
      if o.entity_id ∈ s.map Observation.entity_id then s.length
      else s.length + 1) := by
  have hnodup : ((merge_observations l).map Observation.entity_id).Nodup :=
    nodup_keys_obsAddMany l [] (by simp)
  refine ⟨hnodup, fun o' ho' j => ?_, fun i => ?_, ?_⟩
  · constructor
    · intro hj
      have h1 : hasObs (merge_observations l) o'.entity_id j := ⟨o', ho', rfl, hj⟩
      have h2 := (hasObs_obsAddMany l [] o'.entity_id j).mp h1
      rcases h2 with h2 | h2
      · exact absurd h2 (hasObs_nil _ _)
      · exact h2
    · rintro ⟨x, hx, hid, hj⟩
      have h1 : hasObs (merge_observations l) o'.entity_id j :=
        (hasObs_obsAddMany l [] o'.entity_id j).mpr (Or.inr ⟨x, hx, hid, hj⟩)
      obtain ⟨y, hy, hyid, hyj⟩ := h1
      have : y = o' := List.inj_on_of_nodup_map hnodup hy ho' hyid
      exact this ▸ hyj
  · have := mem_keys_obsAddMany l [] i
    simpa using this
  · unfold obsAdd
    split_ifs with h
    · exact List.length_map _ _
    · simp

/-- Witness for C8: merging three observations of two entities (entity 7
seen by observers 1 and 2, entity 9 seen by observer 1) yields two
entries, with entity 7's `seen_by` equal to `{1, 2}`. -/
theorem observation_merge_witness :
    (merge_observations
      [{ entity_id := 7, kind := EntityKind.AIRCRAFT, team := Team.RED,
         position := (0, 0), seen_by := {1} },
       { entity_id := 9, kind := EntityKind.AWACS, team := Team.RED,
         position := (3, 3), seen_by := {1} },
       { entity_id := 7, kind := EntityKind.AIRCRAFT, team := Team.RED,
         position := (0, 0), seen_by := {2} }]).map Observation.entity_id
      = [7, 9] ∧
    (∀ o' ∈ merge_observations
      [{ entity_id := 7, kind := EntityKind.AIRCRAFT, team := Team.RED,
         position := (0, 0), seen_by := {1} },
       { entity_id := 9, kind := EntityKind.AWACS, team := Team.RED,
         position := (3, 3), seen_by := {1} },
       { entity_id := 7, kind := EntityKind.AIRCRAFT, team := Team.RED,
         position := (0, 0), seen_by := {2} }],
      o'.entity_id = 7 → o'.seen_by = {1, 2}) := by
  constructor
  · rfl
  · intro o' ho' hid
    have h := (observation_merge
      [{ entity_id := 7, kind := EntityKind.AIRCRAFT, team := Team.RED,
         position := (0, 0), seen_by := {1} },
       { entity_id := 9, kind := EntityKind.AWACS, team := Team.RED,
         position := (3, 3), seen_by := {1} },
       { entity_id := 7, kind := EntityKind.AIRCRAFT, team := Team.RED,
         position := (0, 0), seen_by := {2} }] []
      { entity_id := 7, kind := EntityKind.AIRCRAFT, team := Team.RED,
         position := (0, 0), seen_by := {1} }).2.1 o' ho'
    ext j
    rw [h j, hid]
    simp only [List.mem_cons, List.not_mem_nil, or_false]
    constructor
    · rintro ⟨x, hx, hxid, hj⟩
      rcases hx with rfl | rfl | rfl
      · simp only [Finset.mem_singleton] at hj
        subst hj
        simp
      · simp at hxid
      · simp only [Finset.mem_singleton] at hj
        subst hj
        simp
    · intro hj
      rcases Finset.mem_insert.mp hj with rfl | hj'
      · exact ⟨_, Or.inl rfl, rfl, by simp⟩
      · rw [Finset.mem_singleton] at hj'
        subst hj'
        exact ⟨_, Or.inr (Or.inr rfl), rfl, by simp⟩

/-! ## C4: a SAM with radar off is invisible to the enemy team -/

/-- Ids recorded by a fold of merges come from the initial set or from one
of the per-entity observation lists. -/
theorem mem_keys_foldl_obsAddMany (g : Ent → List Observation) (L : List Ent) :
    ∀ (init : List Observation) (i : ℕ),
      i ∈ (L.foldl (fun obs e => obsAddMany obs (g e)) init).map Observation.entity_id →
      i ∈ init.map Observation.entity_id ∨ ∃ e ∈ L, i ∈ (g e).map Observation.entity_id := by
  induction L with
  | nil => intro init i h; exact Or.inl h
  | cons e L ih =>
    intro init i h
    rcases ih (obsAddMany init (g e)) i h with h' | ⟨e', he', hi⟩
    · rcases (mem_keys_obsAddMany (g e) init i).mp h' with h'' | h''
      · exact Or.inl h''
      · exact Or.inr ⟨e, List.mem_cons_self e L, h''⟩
    · exact Or.inr ⟨e', List.mem_cons_of_mem e he', hi⟩

/-- Ids recorded by a fold of single adds come from the initial set or
are one of the added observations' ids. -/
theorem mem_keys_foldl_obsAdd (f : Ent → Observation) (L : List Ent) :
    ∀ (init : List Observation) (i : ℕ),
      i ∈ (L.foldl (fun obs e => obsAdd obs (f e)) init).map Observation.entity_id →
      i ∈ init.map Observation.entity_id ∨ ∃ e ∈ L, i = (f e).entity_id := by
  induction L with
  | nil => intro init i h; exact Or.inl h
  | cons e L ih =>
    intro init i h
    rcases ih (obsAdd init (f e)) i h with h' | ⟨e', he', hi⟩
    · rcases (mem_keys_obsAdd init (f e) i).mp h' with h'' | h''
      · exact Or.inl h''
      · exact Or.inr ⟨e, List.mem_cons_self e L, h''⟩
    · exact Or.inr ⟨e', List.mem_cons_of_mem e he', hi⟩

/-- Enemy-visible ids are a subset of all recorded ids. -/
theorem mem_get_enemy_ids (s : List Observation) (t : Team) (i : ℕ)
    (h : i ∈ get_enemy_ids s t) : i ∈ s.map Observation.entity_id := by
  unfold get_enemy_ids at h
  rw [List.mem_toFinset, List.mem_map] at h
  rw [List.mem_map]
  obtain ⟨o, ho, rfl⟩ := h
  exact ⟨o, (List.mem_filter.mp ho).1, rfl⟩

/-- C4: after a sensor refresh, a SAM whose radar is off never appears in
the opposing team's visible-enemy set, regardless of distances. -/
theorem sam_off_never_visible (w : World) (sam : Ent) (t : Team)
    (hnodup : (w.entities.map Ent.id).Nodup)
    (hmem : sam ∈ w.entities) (hkind : sam.kind = EntityKind.SAM)
    (hoff : sam.«on» = false) (hteam : t ≠ sam.team) :
    sam.id ∉ get_enemy_ids (refresh_all_observations w t).observations t := by
  intro hin
  have hinv : is_sam_invisible sam = true := by
    unfold is_sam_invisible
    rw [if_neg (not_not_intro hkind), hoff]
    rfl
  have hkey := mem_get_enemy_ids _ _ _ hin
  unfold refresh_all_observations at hkey
  dsimp only at hkey
  rcases mem_keys_foldl_obsAdd selfObs _ _ _ hkey with h1 | ⟨e, he, heid⟩
  · rcases mem_keys_foldl_obsAddMany (compute_entity_observations w) _ _ _ h1
      with h2 | ⟨e, _, hid⟩
    · simp at h2
    · rw [List.mem_map] at hid
      obtain ⟨x, hx, hxid⟩ := hid
      obtain ⟨target, htmem, hxid2, -, -, htinv, -, -⟩ :=
        mem_compute_entity_observations w e x hx
      have hts : target = sam :=
        List.inj_on_of_nodup_map hnodup htmem hmem (by rw [← hxid2, hxid])
      rw [hts, hinv] at htinv
      exact Bool.true_eq_false.mp htinv
  · have hfil := List.mem_filter.mp he
    have hfil2 := List.mem_filter.mp hfil.1
    have hee : e ∈ w.entities := hfil2.1
    have het : e.team = t := by simpa using hfil.2
    have hes : e = sam :=
      List.inj_on_of_nodup_map hnodup hee hmem heid.symm
    rw [hes] at het
    exact hteam het.symm

/-- Witness for C4: concrete two-entity world — a red SAM with radar off
next to a blue aircraft; the SAM's id is absent from blue's visible-enemy
set. -/
theorem sam_off_never_visible_witness :
    (1 : ℕ) ∉ get_enemy_ids (refresh_all_observations
      { entities :=
          [{ id := 1, team := Team.RED, kind := EntityKind.SAM, alive := true,
             pos := (0, 0), can_shoot := true, radar_range := 5, «on» := false,
             cooldown_remaining := 0, cooldown_max := 2, missiles := 3,
             missile_max_range := 4, base_hit_prob := 4/5, min_hit_prob := 1/10 },
           { id := 2, team := Team.BLUE, kind := EntityKind.AIRCRAFT, alive := true,
             pos := (0, 1), can_shoot := true, radar_range := 10, «on» := true,
             cooldown_remaining := 0, cooldown_max := 0, missiles := 2,
             missile_max_range := 4, base_hit_prob := 4/5, min_hit_prob := 1/10 }],
        dist := fun _ _ => 1, pending_kills := [], rolls := [],
        fired_blue := ∅, fired_red := ∅ } Team.BLUE).observations Team.BLUE := by
  exact sam_off_never_visible _
    { id := 1, team := Team.RED, kind := EntityKind.SAM, alive := true,
      pos := (0, 0), can_shoot := true, radar_range := 5, «on» := false,
      cooldown_remaining := 0, cooldown_max := 2, missiles := 3,
      missile_max_range := 4, base_hit_prob := 4/5, min_hit_prob := 1/10 }
    Team.BLUE (by decide) (List.mem_cons_self _ _) rfl rfl (by decide)

/-! ## C3 / C10: missile conservation and kill marking in resolve_single -/

theorem entities_record_enemy_fired (w : World) (t : Team) (a : ℕ) :
    (record_enemy_fired w t a).entities = w.entities := by
  cases t <;> rfl

theorem entities_mark_for_kill (w : World) (i : ℕ) :
    (w.mark_for_kill i).entities = w.entities := by
  unfold World.mark_for_kill
  split_ifs <;> rfl

/-- A successful validation implies the attacker has ammunition and the
target exists and is alive. -/
theorem validate_target (w : World) (a : Ent) (tid : ℕ)
    (h : validate_action_in_world w a tid = true) :
    0 < a.missiles ∧ ∃ target, w.get_entity tid = some target ∧ target.alive = true := by
  unfold validate_action_in_world validate_shoot_entity at h
  rcases hte : w.get_entity tid with _ | target
  · rw [hte] at h
    simp at h
  · rw [hte] at h
    simp only [Bool.and_eq_true, decide_eq_true_eq] at h
    exact ⟨h.1.1.2, target, rfl, h.2.1⟩

/-- Full case analysis of `resolve_single`: either validation failed and
nothing changed, or validation succeeded, the result reports the hit roll
as both `hit` and `target_killed`, and the entity list is mapped by an
id-preserving update that decrements exactly the attacker's missiles. -/
theorem resolve_single_cases (w : World) (attacker : Ent) (tid : ℕ)
    (r : CombatResult) (w' : World)
    (h : resolve_single w attacker tid = Except.ok (r, w')) :
    (r.success = false ∧ w' = w ∧ validate_action_in_world w attacker tid = false ∧
      r.hit = none) ∨
    (r.success = true ∧ validate_action_in_world w attacker tid = true ∧
      (∃ b : Bool, r.hit = some b ∧ r.target_killed = b) ∧
      ∃ f : Ent → Ent, w'.entities = w.entities.map f ∧
        (∀ e, (f e).id = e.id) ∧ (∀ e, (f e).alive = e.alive) ∧
        (∀ e, (f e).missiles =
          if e.id = attacker.id then e.missiles - 1 else e.missiles)) := by
  unfold resolve_single at h
  by_cases hval : validate_action_in_world w attacker tid = false
  · rw [if_pos hval] at h
    have hpair := Except.ok.inj h
    rw [Prod.mk.injEq] at hpair
    left
    refine ⟨?_, hpair.2.symm, hval, ?_⟩ <;> rw [← hpair.1]
  · have hval' : validate_action_in_world w attacker tid = true := by
      cases hb : validate_action_in_world w attacker tid
      · exact absurd hb hval
      · rfl
    obtain ⟨-, target, hte, halive⟩ := validate_target w attacker tid hval'
    rw [if_neg hval, hte] at h
    dsimp only at h
    rw [if_neg (by simp [halive])] at h
    rcases hp : hit_probability (w.dist attacker.pos target.pos)
        attacker.missile_max_range attacker.base_hit_prob attacker.min_hit_prob
      with s | prob
    · rw [hp] at h
      simp at h
    · rw [hp] at h
      dsimp only at h
      have hpair := Except.ok.inj h
      rw [Prod.mk.injEq] at hpair
      obtain ⟨hr, hw⟩ := hpair
      right
      refine ⟨by rw [← hr], hval', ⟨decide (w.rolls.headD 1 ≤ prob), by rw [← hr], by rw [← hr]⟩, ?_⟩
      have hents : w'.entities =
          (if attacker.kind = EntityKind.SAM then
            (w.entities.map (fun e =>
              if e.id = attacker.id then { e with missiles := e.missiles - 1 } else e)).map
              (fun e => if e.id = attacker.id then
                { e with cooldown_remaining := e.cooldown_max } else e)
          else
            w.entities.map (fun e =>
              if e.id = attacker.id then { e with missiles := e.missiles - 1 } else e)) := by
        rw [← hw, entities_record_enemy_fired]
        split_ifs with h1 <;>
          first
            | rw [entities_mark_for_kill]
            | rfl
      by_cases hkind : attacker.kind = EntityKind.SAM
      · rw [if_pos hkind, List.map_map] at hents
        refine ⟨_, hents, fun e => ?_, fun e => ?_, fun e => ?_⟩ <;>
          · by_cases he : e.id = attacker.id <;>
              simp [Function.comp, he]
      · rw [if_neg hkind] at hents
        refine ⟨_, hents, fun e => ?_, fun e => ?_, fun e => ?_⟩ <;>
          · by_cases he : e.id = attacker.id <;>
              simp [he]

/-- One resolution step preserves the id list and can only decrement the
(ammunition-positive) attacker's missiles. -/
theorem resolve_single_missiles_le (w : World) (attacker : Ent) (tid : ℕ)
    (r : CombatResult) (w' : World)
    (hnd : (w.entities.map Ent.id).Nodup) (hattmem : attacker ∈ w.entities)
    (h : resolve_single w attacker tid = Except.ok (r, w')) :
    w'.entities.map Ent.id = w.entities.map Ent.id ∧
    ∀ e' ∈ w'.entities, ∃ e ∈ w.entities, e'.id = e.id ∧
      e'.missiles ≤ e.missiles ∧ (0 ≤ e.missiles → 0 ≤ e'.missiles) := by
  rcases resolve_single_cases w attacker tid r w' h with ⟨-, hw, -, -⟩ | ⟨-, hval, -, f, hf, hfid, -, hfm⟩
  · subst hw
    exact ⟨rfl, fun e' he' => ⟨e', he', rfl, le_rfl, fun h => h⟩⟩
  · have hmpos := (validate_target w attacker tid hval).1
    constructor
    · rw [hf, List.map_map]
      exact List.map_congr_left fun e _ => hfid e
    · intro e' he'
      rw [hf, List.mem_map] at he'
      obtain ⟨e, he, rfl⟩ := he'
      refine ⟨e, he, hfid e, ?_, ?_⟩
      · rw [hfm e]
        split_ifs <;> omega
      · intro h0
        rw [hfm e]
        split_ifs with hid
        · have : e = attacker := List.inj_on_of_nodup_map hnd he hattmem hid
          rw [this]
          omega
        · exact h0

/-- Across any sequence of single-shot resolutions, the id list is
preserved and every entity's missile count is non-increasing and stays
non-negative. -/
theorem resolve_seq_missiles_le (shots : List (ℕ × ℕ)) :
    ∀ (w : World) (res : List CombatResult) (w' : World),
      (w.entities.map Ent.id).Nodup →
      resolve_seq w shots = Except.ok (res, w') →
      w'.entities.map Ent.id = w.entities.map Ent.id ∧
      ∀ e' ∈ w'.entities, ∃ e ∈ w.entities, e'.id = e.id ∧
        e'.missiles ≤ e.missiles ∧ (0 ≤ e.missiles → 0 ≤ e'.missiles) := by
  induction shots with
  | nil =>
    intro w res w' _ h
    have hpair := Except.ok.inj h
    rw [Prod.mk.injEq] at hpair
    rw [← hpair.2]
    exact ⟨rfl, fun e' he' => ⟨e', he', rfl, le_rfl, fun h => h⟩⟩
  | cons shot rest ih =>
    intro w res w' hnd h
    obtain ⟨aid, tid⟩ := shot
    unfold resolve_seq at h
    rcases hge : w.get_entity aid with _ | attacker
    · rw [hge] at h
      dsimp only at h
      exact ih w res w' hnd h
    · rw [hge] at h
      dsimp only at h
      rcases h1 : resolve_single w attacker tid with s | rw1
      · rw [h1] at h
        simp at h
      · obtain ⟨r, w1⟩ := rw1
        rw [h1] at h
        dsimp only at h
        rcases h2 : resolve_seq w1 rest with s | rsw2
        · rw [h2] at h
          simp at h
        · obtain ⟨rs, w2⟩ := rsw2
          rw [h2] at h
          dsimp only at h
          have hpair := Except.ok.inj h
          rw [Prod.mk.injEq] at hpair
          have hattmem : attacker ∈ w.entities :=
            List.mem_of_find?_eq_some hge
          have hstep := resolve_single_missiles_le w attacker tid r w1 hnd hattmem h1
          have hnd1 : (w1.entities.map Ent.id).Nodup := by
            rw [hstep.1]
            exact hnd
          have hrest := ih w1 rs w2 hnd1 h2
          rw [← hpair.2]
          refine ⟨hrest.1.trans hstep.1, fun e'' he'' => ?_⟩
          obtain ⟨e', he', hid', hle', hnn'⟩ := hrest.2 e'' he''
          obtain ⟨e, he, hid, hle, hnn⟩ := hstep.2 e' he'
          exact ⟨e, he, hid'.trans hid, hle'.trans hle, fun h0 => hnn' (hnn h0)⟩

/-- C3: a successful shot decrements the shooter's missiles by exactly 1
(`r.success` coincides with validation); a failed validation leaves the
world unchanged; and across any sequence of resolutions every entity's
missile count is non-increasing and never becomes negative. -/
theorem missile_conservation :
    (∀ (w : World) (attacker : Ent) (tid : ℕ) (r : CombatResult) (w' : World),
      resolve_single w attacker tid = Except.ok (r, w') →
      (r.success = true ↔ validate_action_in_world w attacker tid = true) ∧
      (r.success = true →
        0 < attacker.missiles ∧
        ∃ f : Ent → Ent, w'.entities = w.entities.map f ∧
          (∀ e, (f e).id = e.id) ∧
          (∀ e, (f e).missiles =
            if e.id = attacker.id then e.missiles - 1 else e.missiles)) ∧
      (r.success = false → w' = w)) ∧
    (∀ (shots : List (ℕ × ℕ)) (w : World) (res : List CombatResult) (w' : World),
      (w.entities.map Ent.id).Nodup →
      resolve_seq w shots = Except.ok (res, w') →
      ∀ e' ∈ w'.entities, ∃ e ∈ w.entities, e'.id = e.id ∧
        e'.missiles ≤ e.missiles ∧ (0 ≤ e.missiles → 0 ≤ e'.missiles)) := by
  constructor
  · intro w attacker tid r w' h
    rcases resolve_single_cases w attacker tid r w' h with
      ⟨hs, hw, hv, -⟩ | ⟨hs, hv, -, f, hf, hfid, -, hfm⟩
    · refine ⟨⟨fun h1 => absurd h1 (by rw [hs]; simp), fun h1 => absurd h1 (by rw [hv]; simp)⟩, fun h1 => absurd h1 (by rw [hs]; simp), fun _ => hw⟩
    · refine ⟨⟨fun _ => hv, fun _ => hs⟩, fun _ => ⟨(validate_target w attacker tid hv).1, f, hf, hfid, hfm⟩, fun h1 => absurd h1 (by rw [hs]; simp)⟩
  · intro shots w res w' hnd h
    exact (resolve_seq_missiles_le shots w res w' hnd h).2

/-- Witness for C3: in a concrete world (blue aircraft id 2 with 2
missiles shooting red aircraft id 1), validation succeeds and the
theorem yields the shooter's positive ammunition. -/
theorem missile_conservation_witness :
    validate_action_in_world
      { entities :=
          [{ id := 1, team := Team.RED, kind := EntityKind.AIRCRAFT, alive := true,
             pos := (0, 0), can_shoot := true, radar_range := 10, «on» := true,
             cooldown_remaining := 0, cooldown_max := 0, missiles := 3,
             missile_max_range := 0, base_hit_prob := 1, min_hit_prob := 0 },
           { id := 2, team := Team.BLUE, kind := EntityKind.AIRCRAFT, alive := true,
             pos := (0, 1), can_shoot := true, radar_range := 10, «on» := true,
             cooldown_remaining := 0, cooldown_max := 0, missiles := 2,
             missile_max_range := 0, base_hit_prob := 1, min_hit_prob := 0 }],
        dist := fun _ _ => 0, pending_kills := [], rolls := [0],
        fired_blue := ∅, fired_red := ∅ }
      { id := 2, team := Team.BLUE, kind := EntityKind.AIRCRAFT, alive := true,
        pos := (0, 1), can_shoot := true, radar_range := 10, «on» := true,
        cooldown_remaining := 0, cooldown_max := 0, missiles := 2,
        missile_max_range := 0, base_hit_prob := 1, min_hit_prob := 0 } 1 = true ∧
    (0 : ℤ) < 2 := by
  rcases hres : resolve_single
      { entities :=
          [{ id := 1, team := Team.RED, kind := EntityKind.AIRCRAFT, alive := true,
             pos := (0, 0), can_shoot := true, radar_range := 10, «on» := true,
             cooldown_remaining := 0, cooldown_max := 0, missiles := 3,
             missile_max_range := 0, base_hit_prob := 1, min_hit_prob := 0 },
           { id := 2, team := Team.BLUE, kind := EntityKind.AIRCRAFT, alive := true,
             pos := (0, 1), can_shoot := true, radar_range := 10, «on» := true,
             cooldown_remaining := 0, cooldown_max := 0, missiles := 2,
             missile_max_range := 0, base_hit_prob := 1, min_hit_prob := 0 }],
        dist := fun _ _ => 0, pending_kills := [], rolls := [0],
        fired_blue := ∅, fired_red := ∅ }
      { id := 2, team := Team.BLUE, kind := EntityKind.AIRCRAFT, alive := true,
        pos := (0, 1), can_shoot := true, radar_range := 10, «on» := true,
        cooldown_remaining := 0, cooldown_max := 0, missiles := 2,
        missile_max_range := 0, base_hit_prob := 1, min_hit_prob := 0 } 1
    with s | rw'
  · have hok : (resolve_single
        { entities :=
            [{ id := 1, team := Team.RED, kind := EntityKind.AIRCRAFT, alive := true,
               pos := (0, 0), can_shoot := true, radar_range := 10, «on» := true,
               cooldown_remaining := 0, cooldown_max := 0, missiles := 3,
               missile_max_range := 0, base_hit_prob := 1, min_hit_prob := 0 },
             { id := 2, team := Team.BLUE, kind := EntityKind.AIRCRAFT, alive := true,
               pos := (0, 1), can_shoot := true, radar_range := 10, «on» := true,
               cooldown_remaining := 0, cooldown_max := 0, missiles := 2,
               missile_max_range := 0, base_hit_prob := 1, min_hit_prob := 0 }],
          dist := fun _ _ => 0, pending_kills := [], rolls := [0],
          fired_blue := ∅, fired_red := ∅ }
        { id := 2, team := Team.BLUE, kind := EntityKind.AIRCRAFT, alive := true,
          pos := (0, 1), can_shoot := true, radar_range := 10, «on» := true,
          cooldown_remaining := 0, cooldown_max := 0, missiles := 2,
          missile_max_range := 0, base_hit_prob := 1, min_hit_prob := 0 } 1).isOk
        = true := by decide
    rw [hres] at hok
    simp [Except.isOk, Except.toBool] at hok
  · obtain ⟨r, w'⟩ := rw'
    have hthm := missile_conservation.1 _ _ 1 r w' hres
    have hsucc : r.success = true := hthm.1.mpr (by decide)
    exact ⟨hthm.1.mp hsucc, (hthm.2.1 hsucc).1⟩

/-! ## C6: pending-death application -/

/-- The `seen`-loop keeps only pending ids, first occurrence only, in
order: its output is duplicate-free, a subsequence of the kill order, and
every member is pending and not previously seen. -/
theorem killIdsAux_spec (pending : List ℕ) (ko : List ℕ) :
    ∀ seen : Finset ℕ,
      (killIdsAux pending ko seen).Nodup ∧
      List.Sublist (killIdsAux pending ko seen) ko ∧
      (∀ i ∈ killIdsAux pending ko seen, i ∈ pending ∧ i ∉ seen) := by
  induction ko with
  | nil =>
    intro seen
    exact ⟨List.nodup_nil, List.nil_sublist _, by intro i hi; cases hi⟩
  | cons j rest ih =>
    intro seen
    unfold killIdsAux
    split_ifs with hc
    · obtain ⟨hnd, hsub, hmem⟩ := ih (insert j seen)
      refine ⟨?_, List.Sublist.cons₂ j hsub, ?_⟩
      · rw [List.nodup_cons]
        exact ⟨fun hin => (hmem j hin).2 (Finset.mem_insert_self j seen), hnd⟩
      · intro i hi
        rcases List.mem_cons.mp hi with rfl | hi'
        · exact ⟨hc.1, hc.2⟩
        · exact ⟨(hmem i hi').1, fun hs => (hmem i hi').2 (Finset.mem_insert_of_mem hs)⟩
    · obtain ⟨hnd, hsub, hmem⟩ := ih seen
      exact ⟨hnd, hsub.trans (List.sublist_cons_self j rest), hmem⟩

/-- Every id of the kill order that is pending and not yet seen makes it
into the kill list. -/
theorem killIdsAux_complete (pending : List ℕ) (ko : List ℕ) (i : ℕ) :
    ∀ seen : Finset ℕ, i ∈ ko → i ∈ pending → i ∉ seen →
      i ∈ killIdsAux pending ko seen := by
  induction ko with
  | nil => intro seen h; cases h
  | cons j rest ih =>
    intro seen hko hp hs
    unfold killIdsAux
    split_ifs with hc
    · rcases List.mem_cons.mp hko with rfl | hko'
      · exact List.mem_cons_self _ _
      · by_cases hij : i = j
        · subst hij
          exact List.mem_cons_self _ _
        · exact List.mem_cons_of_mem _
            (ih (insert j seen) hko' hp (by simp [Finset.mem_insert, hij, hs]))
    · rcases List.mem_cons.mp hko with rfl | hko'
      · exact absurd ⟨hp, hs⟩ hc
      · exact ih seen hko' hp hs

/-- Basic shape facts about the kill loop: one log per killed id, killed
ids are a subsequence of the processed ids, entity ids are preserved, and
each killed id had a live entity. -/
theorem applyKills_spec (ids : List ℕ) :
    ∀ entities : List Ent,
      (applyKills entities ids).1.length = (applyKills entities ids).2.1.length ∧
      List.Sublist (applyKills entities ids).2.1 ids ∧
      (applyKills entities ids).2.2.map Ent.id = entities.map Ent.id ∧
      (∀ i ∈ (applyKills entities ids).2.1, ∃ e ∈ entities, e.id = i ∧ e.alive = true) := by
  induction ids with
  | nil =>
    intro entities
    exact ⟨rfl, List.nil_sublist _, rfl, by intro i hi; cases hi⟩
  | cons j rest ih =>
    intro entities
    unfold applyKills
    rcases hf : entities.find? (fun e => e.id = j) with _ | e0 <;>
      rw [hf] <;> dsimp only
    · obtain ⟨h1, h2, h3, h4⟩ := ih entities
      exact ⟨h1, h2.trans (List.sublist_cons_self j rest), h3, h4⟩
    · have he0mem : e0 ∈ entities := List.mem_of_find?_eq_some hf
      have he0id : e0.id = j := by
        have := List.find?_some hf
        simpa using this
      by_cases ha : e0.alive = true
      · rw [if_pos ha]
        dsimp only
        obtain ⟨h1, h2, h3, h4⟩ := ih (entities.map (fun x =>
          if x.id = j then { x with alive := false } else x))
        refine ⟨by simpa using h1, List.Sublist.cons₂ j h2, ?_, ?_⟩
        · rw [h3, List.map_map]
          exact List.map_congr_left fun x _ => by
            by_cases hx : x.id = j <;> simp [Function.comp, hx]
        · intro i hi
          rcases List.mem_cons.mp hi with rfl | hi'
          · exact ⟨e0, he0mem, he0id, ha⟩
          · obtain ⟨e1, he1, he1id, he1a⟩ := h4 i hi'
            rw [List.mem_map] at he1
            obtain ⟨e, hemem, rfl⟩ := he1
            by_cases hx : e.id = j
            · rw [if_pos hx] at he1a
              cases he1a
            · rw [if_neg hx] at he1id he1a
              exact ⟨e, hemem, he1id, he1a⟩
      · rw [if_neg ha]
        obtain ⟨h1, h2, h3, h4⟩ := ih entities
        exact ⟨h1, h2.trans (List.sublist_cons_self j rest), h3, h4⟩

/-- After the kill loop, an entity is alive exactly when it was alive
before and its id was not killed. -/
theorem applyKills_alive (ids : List ℕ) :
    ∀ entities : List Ent, ∀ e' ∈ (applyKills entities ids).2.2,
      ∃ e ∈ entities, e'.id = e.id ∧
        (e'.alive = true ↔ (e.alive = true ∧ e'.id ∉ (applyKills entities ids).2.1)) := by
  induction ids with
  | nil =>
    intro entities e' he'
    have h0 : applyKills entities [] = ([], [], entities) := rfl
    rw [h0] at he'
    refine ⟨e', he', rfl, ?_⟩
    rw [h0]
    constructor
    · intro h
      exact ⟨h, fun hin => by cases hin⟩
    · rintro ⟨h, -⟩
      exact h
  | cons j rest ih =>
    intro entities e' he'
    unfold applyKills at he' ⊢
    rcases hf : entities.find? (fun e => e.id = j) with _ | e0 <;>
      rw [hf] at he' ⊢ <;> dsimp only at he' ⊢
    · exact ih entities e' he'
    · by_cases ha : e0.alive = true
      · rw [if_pos ha] at he' ⊢
        dsimp only at he' ⊢
        obtain ⟨e1, he1, hid1, hiff1⟩ := ih (entities.map (fun x =>
          if x.id = j then { x with alive := false } else x)) e' he'
        rw [List.mem_map] at he1
        obtain ⟨e, hemem, rfl⟩ := he1
        by_cases hx : e.id = j
        · rw [if_pos hx] at hid1 hiff1
          refine ⟨e, hemem, hid1, ?_⟩
          rw [hiff1]
          constructor
          · rintro ⟨h1, -⟩
            cases h1
          · rintro ⟨-, hnot⟩
            exact absurd (by rw [hid1, hx]; exact List.mem_cons_self _ _) hnot
        · rw [if_neg hx] at hid1 hiff1
          refine ⟨e, hemem, hid1, ?_⟩
          rw [hiff1]
          constructor
          · rintro ⟨h1, h2⟩
            exact ⟨h1, fun hin => by
              rcases List.mem_cons.mp hin with heq | hin'
              · exact hx (by rw [← hid1, heq])
              · exact h2 hin'⟩
          · rintro ⟨h1, h2⟩
            exact ⟨h1, fun hin => h2 (List.mem_cons_of_mem _ hin)⟩
      · rw [if_neg ha] at he' ⊢
        exact ih entities e' he'

/-- An id whose entity is alive is killed when processed (with unique
entity ids). -/
theorem applyKills_kills (ids : List ℕ) :
    ∀ entities : List Ent, (entities.map Ent.id).Nodup →
      ∀ i ∈ ids, (∃ e ∈ entities, e.id = i ∧ e.alive = true) →
        i ∈ (applyKills entities ids).2.1 := by
  induction ids with
  | nil => intro entities _ i hi; cases hi
  | cons j rest ih =>
    intro entities hnd i hi hex
    obtain ⟨e, hemem, heid, hea⟩ := hex
    unfold applyKills
    rcases hf : entities.find? (fun x => x.id = j) with _ | e0 <;>
      rw [hf] <;> dsimp only
    · rcases List.mem_cons.mp hi with rfl | hi'
      · have : e.id ≠ i := by
          have := List.find?_eq_none.mp hf e hemem
          simpa using this
        exact absurd heid this
      · exact ih entities hnd i hi' ⟨e, hemem, heid, hea⟩
    · have he0mem : e0 ∈ entities := List.mem_of_find?_eq_some hf
      have he0id : e0.id = j := by simpa using List.find?_some hf
      rcases List.mem_cons.mp hi with rfl | hi'
      · have he0e : e0 = e :=
          List.inj_on_of_nodup_map hnd he0mem hemem (by rw [he0id, heid])
        rw [if_pos (by rw [he0e]; exact hea)]
        exact List.mem_cons_self _ _
      · by_cases ha : e0.alive = true
        · rw [if_pos ha]
          dsimp only
          by_cases hej : e.id = j
          · have : i = j := by rw [← heid, hej]
            rw [this]
            exact List.mem_cons_self _ _
          · refine List.mem_cons_of_mem _ (ih _ ?_ i hi' ?_)
            · have : (entities.map (fun x =>
                  if x.id = j then { x with alive := false } else x)).map Ent.id
                  = entities.map Ent.id := by
                rw [List.map_map]
                exact List.map_congr_left fun x _ => by
                  by_cases hx : x.id = j <;> simp [Function.comp, hx]
              rw [this]
              exact hnd
            · refine ⟨e, ?_, heid, hea⟩
              rw [List.mem_map]
              exact ⟨e, hemem, by rw [if_neg hej]⟩
        · rw [if_neg ha]
          exact ih entities hnd i hi' ⟨e, hemem, heid, hea⟩

/-- C6: applying pending deaths with the extracted kill order kills each
marked entity at most once, in first-marked order: the kill list is
duplicate-free and a subsequence of the marking order, `killed_entity_ids`
is duplicate-free with exactly one death-log line per kill, every killed
id was pending, an entity ends alive iff it was alive and not killed, a
pending-marked alive entity is killed (so exactly once), and the pending
set is cleared. -/
theorem kill_application (w : World) (results : List CombatResult) :
    (killIdsAux w.pending_kills (extract_kill_order results) ∅).Nodup ∧
    List.Sublist (killIdsAux w.pending_kills (extract_kill_order results) ∅)
      (extract_kill_order results) ∧
    (apply_pending_deaths w (some (extract_kill_order results))).1.2.Nodup ∧
    List.Sublist (apply_pending_deaths w (some (extract_kill_order results))).1.2
      (extract_kill_order results) ∧
    (apply_pending_deaths w (some (extract_kill_order results))).1.1.length
      = (apply_pending_deaths w (some (extract_kill_order results))).1.2.length ∧
    (∀ i ∈ (apply_pending_deaths w (some (extract_kill_order results))).1.2,
      i ∈ w.pending_kills) ∧
    (∀ e' ∈ (apply_pending_deaths w (some (extract_kill_order results))).2.entities,
      ∃ e ∈ w.entities, e'.id = e.id ∧
        (e'.alive = true ↔ (e.alive = true ∧
          e'.id ∉ (apply_pending_deaths w (some (extract_kill_order results))).1.2))) ∧
    ((w.entities.map Ent.id).Nodup →
      ∀ i ∈ extract_kill_order results, i ∈ w.pending_kills →
        (∃ e ∈ w.entities, e.id = i ∧ e.alive = true) →
        i ∈ (apply_pending_deaths w (some (extract_kill_order results))).1.2) ∧
    (apply_pending_deaths w (some (extract_kill_order results))).2.pending_kills = [] := by
  obtain ⟨hKnd, hKsub, hKmem⟩ :=
    killIdsAux_spec w.pending_kills (extract_kill_order results) ∅
  obtain ⟨hlen, hsub, -, -⟩ := applyKills_spec
    (killIdsAux w.pending_kills (extract_kill_order results) ∅) w.entities
  have h11 : (apply_pending_deaths w (some (extract_kill_order results))).1.1
      = (applyKills w.entities
          (killIdsAux w.pending_kills (extract_kill_order results) ∅)).1 := rfl
  have h12 : (apply_pending_deaths w (some (extract_kill_order results))).1.2
      = (applyKills w.entities
          (killIdsAux w.pending_kills (extract_kill_order results) ∅)).2.1 := rfl
  have h2e : (apply_pending_deaths w (some (extract_kill_order results))).2.entities
      = (applyKills w.entities
          (killIdsAux w.pending_kills (extract_kill_order results) ∅)).2.2 := rfl
  refine ⟨hKnd, hKsub, ?_, ?_, ?_, ?_, ?_, ?_, rfl⟩
  · rw [h12]
    exact List.Nodup.sublist hsub hKnd
  · rw [h12]
    exact hsub.trans hKsub
  · rw [h11, h12]
    exact hlen
  · intro i hi
    rw [h12] at hi
    exact (hKmem i (hsub.subset hi)).1
  · intro e' he'
    rw [h2e] at he'
    rw [h12]
    exact applyKills_alive _ w.entities e' he'
  · intro hnd i hko hp hex
    rw [h12]
    exact applyKills_kills _ w.entities hnd i
      (killIdsAux_complete w.pending_kills (extract_kill_order results) i ∅ hko hp
        (Finset.not_mem_empty i)) hex

/-- Witness for C6: two hits on the same target (id 5) in one turn —
the kill list is duplicate-free, there is one log line per kill, and the
target is killed. -/
theorem kill_application_witness :
    (apply_pending_deaths
      { entities :=
          [{ id := 5, team := Team.RED, kind := EntityKind.AIRCRAFT, alive := true,
             pos := (0, 0), can_shoot := true, radar_range := 10, «on» := true,
             cooldown_remaining := 0, cooldown_max := 0, missiles := 3,
             missile_max_range := 0, base_hit_prob := 1, min_hit_prob := 0 }],
        dist := fun _ _ => 0, pending_kills := [5], rolls := [],
        fired_blue := ∅, fired_red := ∅ }
      (some (extract_kill_order
        [{ attacker_id := 2, target_id := some 5, success := true, hit := some true,
           distance := some 0, hit_prob := some 0, target_killed := true, log := "HIT" },
         { attacker_id := 3, target_id := some 5, success := true, hit := some true,
           distance := some 0, hit_prob := some 0, target_killed := true,
           log := "HIT" }]))).1.2.Nodup ∧
    (apply_pending_deaths
      { entities :=
          [{ id := 5, team := Team.RED, kind := EntityKind.AIRCRAFT, alive := true,
             pos := (0, 0), can_shoot := true, radar_range := 10, «on» := true,
             cooldown_remaining := 0, cooldown_max := 0, missiles := 3,
             missile_max_range := 0, base_hit_prob := 1, min_hit_prob := 0 }],
        dist := fun _ _ => 0, pending_kills := [5], rolls := [],
        fired_blue := ∅, fired_red := ∅ }
      (some (extract_kill_order
        [{ attacker_id := 2, target_id := some 5, success := true, hit := some true,
           distance := some 0, hit_prob := some 0, target_killed := true, log := "HIT" },
         { attacker_id := 3, target_id := some 5, success := true, hit := some true,
           distance := some 0, hit_prob := some 0, target_killed := true,
           log := "HIT" }]))).1.1.length
      = (apply_pending_deaths
      { entities :=
          [{ id := 5, team := Team.RED, kind := EntityKind.AIRCRAFT, alive := true,
             pos := (0, 0), can_shoot := true, radar_range := 10, «on» := true,
             cooldown_remaining := 0, cooldown_max := 0, missiles := 3,
             missile_max_range := 0, base_hit_prob := 1, min_hit_prob := 0 }],
        dist := fun _ _ => 0, pending_kills := [5], rolls := [],
        fired_blue := ∅, fired_red := ∅ }
      (some (extract_kill_order
        [{ attacker_id := 2, target_id := some 5, success := true, hit := some true,
           distance := some 0, hit_prob := some 0, target_killed := true, log := "HIT" },
         { attacker_id := 3, target_id := some 5, success := true, hit := some true,
           distance := some 0, hit_prob := some 0, target_killed := true,
           log := "HIT" }]))).1.2.length ∧
    (5 : ℕ) ∈ (apply_pending_deaths
      { entities :=
          [{ id := 5, team := Team.RED, kind := EntityKind.AIRCRAFT, alive := true,
             pos := (0, 0), can_shoot := true, radar_range := 10, «on» := true,
             cooldown_remaining := 0, cooldown_max := 0, missiles := 3,
             missile_max_range := 0, base_hit_prob := 1, min_hit_prob := 0 }],
        dist := fun _ _ => 0, pending_kills := [5], rolls := [],
        fired_blue := ∅, fired_red := ∅ }
      (some (extract_kill_order
        [{ attacker_id := 2, target_id := some 5, success := true, hit := some true,
           distance := some 0, hit_prob := some 0, target_killed := true, log := "HIT" },
         { attacker_id := 3, target_id := some 5, success := true, hit := some true,
           distance := some 0, hit_prob := some 0, target_killed := true,
           log := "HIT" }]))).1.2 := by
  have h := kill_application
    { entities :=
        [{ id := 5, team := Team.RED, kind := EntityKind.AIRCRAFT, alive := true,
           pos := (0, 0), can_shoot := true, radar_range := 10, «on» := true,
           cooldown_remaining := 0, cooldown_max := 0, missiles := 3,
           missile_max_range := 0, base_hit_prob := 1, min_hit_prob := 0 }],
      dist := fun _ _ => 0, pending_kills := [5], rolls := [],
      fired_blue := ∅, fired_red := ∅ }
    [{ attacker_id := 2, target_id := some 5, success := true, hit := some true,
       distance := some 0, hit_prob := some 0, target_killed := true, log := "HIT" },
     { attacker_id := 3, target_id := some 5, success := true, hit := some true,
       distance := some 0, hit_prob := some 0, target_killed := true, log := "HIT" }]
  refine ⟨h.2.2.1, h.2.2.2.2.1, ?_⟩
  refine h.2.2.2.2.2.2.2.1 (by decide) 5 (by decide) (by decide) ?_
  exact ⟨{ id := 5, team := Team.RED, kind := EntityKind.AIRCRAFT, alive := true,
           pos := (0, 0), can_shoot := true, radar_range := 10, «on» := true,
           cooldown_remaining := 0, cooldown_max := 0, missiles := 3,
           missile_max_range := 0, base_hit_prob := 1, min_hit_prob := 0 },
         List.mem_cons_self _ _, rfl, rfl⟩

/-! ## C10: target_killed overcounts distinct deaths -/

/-- C10: every successful shot whose roll hits reports
`target_killed = true`, independently of whether the target was already
marked; and concretely, two hits on the same target in one turn produce
two `target_killed = true` results but only one entry in
`killed_entity_ids`. -/
theorem target_killed_overcount :
    (∀ (w : World) (attacker : Ent) (tid : ℕ) (r : CombatResult) (w' : World),
      resolve_single w attacker tid = Except.ok (r, w') →
      r.hit = some true → r.target_killed = true) ∧
    Except.toOption ((resolve_seq
      { entities :=
          [{ id := 1, team := Team.RED, kind := EntityKind.AIRCRAFT, alive := true,
             pos := (0, 0), can_shoot := true, radar_range := 10, «on» := true,
             cooldown_remaining := 0, cooldown_max := 0, missiles := 3,
             missile_max_range := 0, base_hit_prob := 1, min_hit_prob := 0 },
           { id := 2, team := Team.BLUE, kind := EntityKind.AIRCRAFT, alive := true,
             pos := (0, 1), can_shoot := true, radar_range := 10, «on» := true,
             cooldown_remaining := 0, cooldown_max := 0, missiles := 1,
             missile_max_range := 0, base_hit_prob := 1, min_hit_prob := 0 },
           { id := 3, team := Team.BLUE, kind := EntityKind.AIRCRAFT, alive := true,
             pos := (1, 0), can_shoot := true, radar_range := 10, «on» := true,
             cooldown_remaining := 0, cooldown_max := 0, missiles := 1,
             missile_max_range := 0, base_hit_prob := 1, min_hit_prob := 0 }],
        dist := fun _ _ => 0, pending_kills := [], rolls := [0, 0],
        fired_blue := ∅, fired_red := ∅ } [(2, 1), (3, 1)]).map
      (fun p => ((p.1.filter (fun r => r.target_killed)).length,
        (apply_pending_deaths p.2 (some (extract_kill_order p.1))).1.2.length)))
      = some (2, 1) := by
  constructor
  · intro w attacker tid r w' h hhit
    rcases resolve_single_cases w attacker tid r w' h with
      ⟨-, -, -, hnone⟩ | ⟨-, -, ⟨b, hb, hk⟩, -⟩
    · rw [hnone] at hhit
      cases hhit
    · rw [hb] at hhit
      rw [hk, Option.some.inj hhit]
  · decide

/-- Witness for C10: a concrete hitting shot reports
`target_killed = true`. -/
theorem target_killed_overcount_witness :
    Except.toOption ((resolve_single
      { entities :=
          [{ id := 1, team := Team.RED, kind := EntityKind.AIRCRAFT, alive := true,
             pos := (0, 0), can_shoot := true, radar_range := 10, «on» := true,
             cooldown_remaining := 0, cooldown_max := 0, missiles := 3,
             missile_max_range := 0, base_hit_prob := 1, min_hit_prob := 0 },
           { id := 2, team := Team.BLUE, kind := EntityKind.AIRCRAFT, alive := true,
             pos := (0, 1), can_shoot := true, radar_range := 10, «on» := true,
             cooldown_remaining := 0, cooldown_max := 0, missiles := 2,
             missile_max_range := 0, base_hit_prob := 1, min_hit_prob := 0 }],
        dist := fun _ _ => 0, pending_kills := [], rolls := [0],
        fired_blue := ∅, fired_red := ∅ }
      { id := 2, team := Team.BLUE, kind := EntityKind.AIRCRAFT, alive := true,
        pos := (0, 1), can_shoot := true, radar_range := 10, «on» := true,
        cooldown_remaining := 0, cooldown_max := 0, missiles := 2,
        missile_max_range := 0, base_hit_prob := 1, min_hit_prob := 0 } 1).map
      (fun p => p.1.target_killed)) = some true := by
  rcases hres : resolve_single
      { entities :=
          [{ id := 1, team := Team.RED, kind := EntityKind.AIRCRAFT, alive := true,
             pos := (0, 0), can_shoot := true, radar_range := 10, «on» := true,
             cooldown_remaining := 0, cooldown_max := 0, missiles := 3,
             missile_max_range := 0, base_hit_prob := 1, min_hit_prob := 0 },
           { id := 2, team := Team.BLUE, kind := EntityKind.AIRCRAFT, alive := true,
             pos := (0, 1), can_shoot := true, radar_range := 10, «on» := true,
             cooldown_remaining := 0, cooldown_max := 0, missiles := 2,
             missile_max_range := 0, base_hit_prob := 1, min_hit_prob := 0 }],
        dist := fun _ _ => 0, pending_kills := [], rolls := [0],
        fired_blue := ∅, fired_red := ∅ }
      { id := 2, team := Team.BLUE, kind := EntityKind.AIRCRAFT, alive := true,
        pos := (0, 1), can_shoot := true, radar_range := 10, «on» := true,
        cooldown_remaining := 0, cooldown_max := 0, missiles := 2,
        missile_max_range := 0, base_hit_prob := 1, min_hit_prob := 0 } 1
    with s | rw'
  · have hok : ((resolve_single
        { entities :=
            [{ id := 1, team := Team.RED, kind := EntityKind.AIRCRAFT, alive := true,
               pos := (0, 0), can_shoot := true, radar_range := 10, «on» := true,
               cooldown_remaining := 0, cooldown_max := 0, missiles := 3,
               missile_max_range := 0, base_hit_prob := 1, min_hit_prob := 0 },
             { id := 2, team := Team.BLUE, kind := EntityKind.AIRCRAFT, alive := true,
               pos := (0, 1), can_shoot := true, radar_range := 10, «on» := true,
               cooldown_remaining := 0, cooldown_max := 0, missiles := 2,
               missile_max_range := 0, base_hit_prob := 1, min_hit_prob := 0 }],
          dist := fun _ _ => 0, pending_kills := [], rolls := [0],
          fired_blue := ∅, fired_red := ∅ }
        { id := 2, team := Team.BLUE, kind := EntityKind.AIRCRAFT, alive := true,
          pos := (0, 1), can_shoot := true, radar_range := 10, «on» := true,
          cooldown_remaining := 0, cooldown_max := 0, missiles := 2,
          missile_max_range := 0, base_hit_prob := 1, min_hit_prob := 0 } 1).map
        (fun p => p.1.hit)).toOption = some (some true) := by decide
    rw [hres] at hok
    simp [Except.map, Except.toOption] at hok
  · obtain ⟨r, w'⟩ := rw'
    have hhit : r.hit = some true := by
      have hok : ((resolve_single
          { entities :=
              [{ id := 1, team := Team.RED, kind := EntityKind.AIRCRAFT, alive := true,
                 pos := (0, 0), can_shoot := true, radar_range := 10, «on» := true,
                 cooldown_remaining := 0, cooldown_max := 0, missiles := 3,
                 missile_max_range := 0, base_hit_prob := 1, min_hit_prob := 0 },
               { id := 2, team := Team.BLUE, kind := EntityKind.AIRCRAFT, alive := true,
                 pos := (0, 1), can_shoot := true, radar_range := 10, «on» := true,
                 cooldown_remaining := 0, cooldown_max := 0, missiles := 2,
                 missile_max_range := 0, base_hit_prob := 1, min_hit_prob := 0 }],
            dist := fun _ _ => 0, pending_kills := [], rolls := [0],
            fired_blue := ∅, fired_red := ∅ }
          { id := 2, team := Team.BLUE, kind := EntityKind.AIRCRAFT, alive := true,
            pos := (0, 1), can_shoot := true, radar_range := 10, «on» := true,
            cooldown_remaining := 0, cooldown_max := 0, missiles := 2,
            missile_max_range := 0, base_hit_prob := 1, min_hit_prob := 0 } 1).map
          (fun p => p.1.hit)).toOption = some (some true) := by decide
      rw [hres] at hok
      simpa [Except.map, Except.toOption] using hok
    have hk := target_killed_overcount.1 _ _ 1 r w' hres hhit
    simp [Except.map, Except.toOption, hk]

end Wargame
